import Mathlib

/-!
Verification of the structured Windows-event subsystem of `rlog_generator`
(`rlog_generator/validators.py`, `rlog_generator/utils.py`,
`rlog_generator/windows_event.py`, `rlog_generator/windows_event_types.py`).

The Python code is shallowly embedded: Python values flowing through the
configuration mappings become the inductive `Val`; code that can raise
becomes `Except PyErr`; exception classes become the constructors of
`PyErr`, with one constructor of the structured payload types (`VErr`,
`SecErr`) per `raise` site of the source, and `render` functions that
rebuild the exact source message strings.  Randomness and the clock, used
only by the `func_*` generator functions, are abstracted as an explicit
`Env` record passed to the value-resolution and serialization functions.
-/

namespace RlogGen

/-- Python values as they occur in the configuration mappings handled by
the generator: integers, strings, dicts (insertion-ordered association
lists, as Python 3.7+ dicts are) and lists.  Floats, booleans and `None`
never occur in the embedded code paths and are not modelled. -/
inductive Val where
  | int (i : Int)
  | str (s : String)
  | dict (entries : List (String × Val))
  | list (items : List Val)

/-- First-match lookup in a dict's entry list (Python dict keys are unique,
so first match is the match). -/
def dictLookup : List (String × Val) → String → Option Val
  | [], _ => none
  | (k, v) :: rest, key => if k = key then some v else dictLookup rest key

/-- `d[k]`-style lookup returning `none` for missing keys or non-dicts. -/
def Val.lookup : Val → String → Option Val
  | .dict es, k => dictLookup es k
  | _, _ => none

/-- Python `==` on the modelled values: equal only within one type, dicts
and lists elementwise.  (The embedded call sites only ever compare
ints, strings and `None`-vs-string, so the ordered dict comparison is
never exercised.) -/
def pyEq : Val → Val → Bool
  | .int a, .int b => a = b
  | .str a, .str b => a = b
  | .dict a, .dict b => pyEqEntries a b
  | .list a, .list b => pyEqItems a b
  | _, _ => false

where
  pyEqEntries : List (String × Val) → List (String × Val) → Bool
    | [], [] => true
    | (k1, v1) :: r1, (k2, v2) :: r2 => k1 = k2 && pyEq v1 v2 && pyEqEntries r1 r2
    | _, _ => false
  pyEqItems : List Val → List Val → Bool
    | [], [] => true
    | v1 :: r1, v2 :: r2 => pyEq v1 v2 && pyEqItems r1 r2
    | _, _ => false

/-- Python truthiness of an optional value (`d.get(k)` result): missing,
`0`, `""` and empty containers are falsy. -/
def truthy : Option Val → Bool
  | none => false
  | some (.int i) => i ≠ 0
  | some (.str s) => s ≠ ""
  | some (.dict es) => ¬ es.isEmpty
  | some (.list vs) => ¬ vs.isEmpty

/-! ### Character and string helpers

All string processing is done on `String.data` character lists, mirroring
the ASCII-level behaviour of the Python string operations used by the
source. -/

/-- Python `str.split()` whitespace (ASCII portion; the configuration
strings handled by the code are ASCII). -/
def isPySpace (c : Char) : Bool :=
  c = ' ' || c = '\t' || c = '\n' || c = '\r' || c = '\x0b' || c = '\x0c'

/-- Strip leading and trailing whitespace (what `int(str)` tolerates). -/
def trimChars (cs : List Char) : List Char :=
  ((cs.dropWhile isPySpace).reverse.dropWhile isPySpace).reverse

/-- Accumulating worker for `pySplitWs`. -/
def pySplitWsAux : List Char → List Char → List String
  | acc, [] => if acc.isEmpty then [] else [String.mk acc.reverse]
  | acc, c :: cs =>
    if isPySpace c then
      if acc.isEmpty then pySplitWsAux [] cs
      else String.mk acc.reverse :: pySplitWsAux [] cs
    else pySplitWsAux (c :: acc) cs

/-- Python `str.split()` with no argument: split on whitespace runs,
discarding empty pieces. -/
def pySplitWs (s : String) : List String :=
  pySplitWsAux [] s.data

/-- Does the string start with `func_` (the generator-invocation marker
tested by `get_function`)? -/
def startsWithFunc (s : String) : Bool :=
  match s.data with
  | 'f' :: 'u' :: 'n' :: 'c' :: '_' :: _ => true
  | _ => false

/-- Worker for `splitUnderscore`. -/
def splitUnderscoreAux : List Char → List Char → List String
  | acc, [] => [String.mk acc.reverse]
  | acc, c :: cs =>
    if c = '_' then String.mk acc.reverse :: splitUnderscoreAux [] cs
    else splitUnderscoreAux (c :: acc) cs

/-- Python `str.split("_")`: split at every underscore, keeping empty
pieces. -/
def splitUnderscore (s : String) : List String :=
  splitUnderscoreAux [] s.data

/-- ASCII lower-casing of one character (Python `str.lower()` on the ASCII
strings the boolean lexicon check sees). -/
def lowerChar (c : Char) : Char :=
  if 'A' ≤ c ∧ c ≤ 'Z' then Char.ofNat (c.toNat + 32) else c

/-- Python `str.lower()` (ASCII portion). -/
def pyLower (s : String) : String :=
  String.mk (s.data.map lowerChar)

/-- Join strings with a separator (Python `sep.join(parts)`). -/
def joinWith (sep : String) : List String → String
  | [] => ""
  | [x] => x
  | x :: rest => x ++ sep ++ joinWith sep rest

/-! ### Error model

`WindowsEventValidationError` messages are kept structured (one `VErr`
constructor per `raise` site), with `VErr.render` rebuilding the exact
f-string of the source.  The `ValueError`s raised by
`windows_event_types.validate_security_event` likewise become `SecErr`.
Built-in `ValueError`/`TypeError`/`KeyError`/`IndexError` of the Python
runtime are the remaining constructors of `PyErr`. -/

/-- The `ValueError`s raised by `validate_security_event`
(`windows_event_types.py`). The type-mismatch field name and actual type
are arbitrary values, as in the source. -/
inductive SecErr where
  | unknownId (idv : Val)
  | noTemplate (id : Int)
  | noDataArray
  | missingFields (id : Int) (fields : List String)
  | typeMismatch (name : Val) (expected : String) (actual : Option Val)

/-- Payload of a Python `ValueError`: either a plain runtime message (for
example from `int()`), or one of the structured security-validation
errors. -/
inductive ValErr where
  | msg (s : String)
  | sec (e : SecErr)

/-- One constructor per `raise WindowsEventValidationError` site of
`validators.py`. -/
inductive VErr where
  | providerNameGuid
  | providerGuidFormat (g : String)
  | activityIdFormat (g : String)
  | relatedActivityIdFormat (g : String)
  | missingExecution (fields : List String)
  | execNegative (field : String) (value : Int)
  | execInvalid (field : String) (value : Val)
  | missingSystem (fields : List String)
  | eventIdNoText
  | qualifiersNegative (q : Int)
  | eventIdNegative (id : Int)
  | invalidEventId (v : Val) (m : String)
  | keywordsFormat (v : Val)
  | versionRange (v : Int)
  | levelRange (v : Int)
  | eventDataNotList
  | dataElemNotDict
  | dataElemNoName
  | invalidBool (name : Val) (value : String)
  | missingDescriptorFields (fields : List String)
  | descriptorInvalidValue (m : String)
  | descLevelRange (v : Int)
  | descOpcodeRange (v : Int)
  | descTaskNegative (v : Int)
  | missingTopFields (fields : List String)
  | templateNotDict
  | templateMissing
  | missingSystemInEvent
  | channelMismatch (name : String)
  | securityRequiresEventData (idv : Val)
  | securityDataNotDict
  | securityFailed (e : ValErr)
  | renderingNoCulture
  | invalidCulture (c : Val)
  | renderingKeywordsBad
  | keywordListBad
  | tooManyKeywords

/-- Python exceptions crossing the embedded functions' boundaries. -/
inductive PyErr where
  | validation (e : VErr)
  | valueError (e : ValErr)
  | typeError (m : String)
  | keyError (k : String)
  | indexError

/-! ### Python `str` / `repr` of values -/

mutual

/-- Python `repr` of a modelled value (used by `str` on containers and by
the f-strings that interpolate lists/dicts). -/
def pyRepr : Val → String
  | .int i => toString i
  | .str s => "\x27" ++ s ++ "\x27"
  | .dict es => "\x7b" ++ pyReprEntries es ++ "\x7d"
  | .list vs => "[" ++ pyReprItems vs ++ "]"

def pyReprEntries : List (String × Val) → String
  | [] => ""
  | [(k, v)] => "\x27" ++ k ++ "\x27: " ++ pyRepr v
  | (k, v) :: rest => "\x27" ++ k ++ "\x27: " ++ pyRepr v ++ ", " ++ pyReprEntries rest

def pyReprItems : List Val → String
  | [] => ""
  | [v] => pyRepr v
  | v :: rest => pyRepr v ++ ", " ++ pyReprItems rest

end

/-- Python `str` of a modelled value (also what an f-string interpolation
`{v}` produces). -/
def pyStr : Val → String
  | .int i => toString i
  | .str s => s
  | v => pyRepr v

/-- Python `repr` of a list of strings, as interpolated by
`f"...: \x7bmissing_fields\x7d"` in `validate_security_event`. -/
def pyReprStrList (xs : List String) : String :=
  "[" ++ joinWith ", " (xs.map (fun s => "\x27" ++ s ++ "\x27")) ++ "]"

/-- Exact message of each `ValueError` raised in
`windows_event_types.validate_security_event`. -/
def SecErr.render : SecErr → String
  | .unknownId idv => "Unknown Security Event ID: " ++ pyStr idv
  | .noTemplate id => "No template defined for Security Event ID: " ++ toString id
  | .noDataArray => "EventData must contain Data array"
  | .missingFields id fields =>
      "Missing required fields for Security Event " ++ toString id ++ ": " ++ pyReprStrList fields
  | .typeMismatch name expected actual =>
      "Invalid type for field " ++ pyStr name ++ ". Expected " ++ expected ++ ", got " ++
        (match actual with | some v => pyStr v | none => "None")

/-- Message carried by a Python `ValueError`. -/
def ValErr.render : ValErr → String
  | .msg s => s
  | .sec e => e.render

/-- Exact message of each `WindowsEventValidationError` raise site of
`validators.py`. -/
def VErr.render : VErr → String
  | .providerNameGuid => "Provider must have either Name or Guid attribute"
  | .providerGuidFormat g => "Invalid Provider GUID format: " ++ g
  | .activityIdFormat g => "Invalid ActivityID GUID format: " ++ g
  | .relatedActivityIdFormat g => "Invalid RelatedActivityID GUID format: " ++ g
  | .missingExecution fields => "Missing required Execution attributes: " ++ joinWith ", " fields
  | .execNegative field value => field ++ " must be non-negative, got " ++ toString value
  | .execInvalid field value => "Invalid " ++ field ++ " value: " ++ pyStr value
  | .missingSystem fields => "Missing required System elements: " ++ joinWith ", " fields
  | .eventIdNoText => "EventID dict must have \x27_text\x27 field"
  | .qualifiersNegative q => "EventID Qualifiers must be non-negative, got " ++ toString q
  | .eventIdNegative id => "EventID must be non-negative, got " ++ toString id
  | .invalidEventId v m => "Invalid EventID: " ++ pyStr v ++ " - " ++ m
  | .keywordsFormat v => "Invalid Keywords format: " ++ pyStr v
  | .versionRange v => "Version must be between 0 and 255, got " ++ toString v
  | .levelRange v => "Level must be between 0 and 15, got " ++ toString v
  | .eventDataNotList => "EventData.Data must be a list"
  | .dataElemNotDict => "Each Data element must be a dictionary"
  | .dataElemNoName => "Each Data element must have a Name"
  | .invalidBool name value => "Invalid boolean value for " ++ pyStr name ++ ": " ++ value
  | .missingDescriptorFields fields =>
      "Missing required fields in EventDescriptor: " ++ joinWith ", " fields
  | .descriptorInvalidValue m => "Invalid value in EventDescriptor: " ++ m
  | .descLevelRange v => "Level must be between 0 and 15, got " ++ toString v
  | .descOpcodeRange v => "Opcode must be between 0 and 240, got " ++ toString v
  | .descTaskNegative v => "Task must be non-negative, got " ++ toString v
  | .missingTopFields fields => "Missing required fields: " ++ joinWith ", " fields
  | .templateNotDict => "Template must be a dictionary"
  | .templateMissing => "Template must contain message and values"
  | .missingSystemInEvent => "Missing System element in Event"
  | .channelMismatch name => "Channel ID mismatch for " ++ name
  | .securityRequiresEventData idv => "Security Event " ++ pyStr idv ++ " requires EventData"
  | .securityDataNotDict => "Security Event data must be a dictionary"
  | .securityFailed e => "Security Event validation failed: " ++ e.render
  | .renderingNoCulture => "RenderingInfo must have Culture attribute"
  | .invalidCulture c => "Invalid Culture format: " ++ pyStr c ++ ". Expected format: \x27en-US\x27"
  | .renderingKeywordsBad => "Keywords in RenderingInfo must contain Keyword elements"
  | .keywordListBad => "Keywords.Keyword must be a list"
  | .tooManyKeywords => "Maximum 64 Keywords allowed in RenderingInfo"

/-! ### Python `int()` conversions -/

/-- Decimal digit test. -/
def isDecDigit (c : Char) : Bool := '0' ≤ c && c ≤ '9'

/-- Hex digit test (the `[0-9a-fA-F]` class). -/
def isHexChar (c : Char) : Bool :=
  ('0' ≤ c && c ≤ '9') || ('a' ≤ c && c ≤ 'f') || ('A' ≤ c && c ≤ 'F')

/-- Numeric value of a decimal digit. -/
def decDigitVal (c : Char) : Nat := c.toNat - '0'.toNat

/-- Numeric value of a hex digit. -/
def hexDigitVal (c : Char) : Nat :=
  if '0' ≤ c && c ≤ '9' then c.toNat - '0'.toNat
  else if 'a' ≤ c && c ≤ 'f' then c.toNat - 'a'.toNat + 10
  else c.toNat - 'A'.toNat + 10

/-- Value of a decimal digit string. -/
def decNatVal (cs : List Char) : Nat :=
  cs.foldl (fun acc c => 10 * acc + decDigitVal c) 0

/-- Value of a hex digit string. -/
def hexNatVal (cs : List Char) : Nat :=
  cs.foldl (fun acc c => 16 * acc + hexDigitVal c) 0

/-- Split an optional leading sign off a numeric literal. -/
def pySign : List Char → Int × List Char
  | '-' :: r => (-1, r)
  | '+' :: r => (1, r)
  | cs => (1, cs)

/-- Strip an optional `0x`/`0X` prefix off a base-16 literal. -/
def pyHexBody : List Char → List Char
  | '0' :: x :: r => if x = 'x' ∨ x = 'X' then r else '0' :: x :: r
  | cs => cs

/-- Python `int(s)` for a string: optional surrounding whitespace, optional
sign, decimal digits.  (Underscored literals like `1_0` are accepted by
Python but never occur at the embedded call sites and are not modelled.) -/
def pyIntOfDecStr (s : String) : Except PyErr Int :=
  if (pySign (trimChars s.data)).2 ≠ [] ∧ (pySign (trimChars s.data)).2.all isDecDigit then
    .ok ((pySign (trimChars s.data)).1 * (decNatVal (pySign (trimChars s.data)).2 : Int))
  else
    .error (.valueError (.msg ("invalid literal for int() with base 10: \x27" ++ s ++ "\x27")))

/-- Python `int(s, 16)`: optional surrounding whitespace, optional sign,
optional `0x`/`0X` prefix, hex digits. -/
def pyIntBase16Str (s : String) : Except PyErr Int :=
  if pyHexBody (pySign (trimChars s.data)).2 ≠ [] ∧
      (pyHexBody (pySign (trimChars s.data)).2).all isHexChar then
    .ok ((pySign (trimChars s.data)).1 * (hexNatVal (pyHexBody (pySign (trimChars s.data)).2) : Int))
  else
    .error (.valueError (.msg ("invalid literal for int() with base 16: \x27" ++ s ++ "\x27")))

/-- Python `int(v)` on a modelled value: ints pass through, strings parse
as decimal, containers raise `TypeError`. -/
def pyInt : Val → Except PyErr Int
  | .int i => .ok i
  | .str s => pyIntOfDecStr s
  | .dict _ => .error (.typeError "int() argument must be a string or a number, not \x27dict\x27")
  | .list _ => .error (.typeError "int() argument must be a string or a number, not \x27list\x27")

/-! ### The regular-expression matchers

`re.match(pattern, s)` anchors at the start; the trailing `$` of the three
patterns used (`GUID_PATTERN`, `HEX_INT64_PATTERN`, the Culture pattern)
matches at the end of the string or just before one final newline — the
standard Python `$` semantics, which the matchers below reproduce. -/

/-- Consume exactly `n` characters satisfying `p`, returning the rest. -/
def consume (p : Char → Bool) : Nat → List Char → Option (List Char)
  | 0, cs => some cs
  | _ + 1, [] => none
  | n + 1, c :: cs => if p c then consume p n cs else none

/-- Consume one expected character. -/
def expectChar (c : Char) : List Char → Option (List Char)
  | [] => none
  | x :: xs => if x = c then some xs else none

/-- Consume the `\x7b 8hex - 4hex - 4hex - 4hex - 12hex \x7d` body of
`GUID_PATTERN`, returning the unconsumed tail. -/
def guidTail (cs : List Char) : Option (List Char) :=
  (expectChar '\x7b' cs).bind fun cs =>
  (consume isHexChar 8 cs).bind fun cs =>
  (expectChar '-' cs).bind fun cs =>
  (consume isHexChar 4 cs).bind fun cs =>
  (expectChar '-' cs).bind fun cs =>
  (consume isHexChar 4 cs).bind fun cs =>
  (expectChar '-' cs).bind fun cs =>
  (consume isHexChar 4 cs).bind fun cs =>
  (expectChar '-' cs).bind fun cs =>
  (consume isHexChar 12 cs).bind fun cs =>
  expectChar '\x7d' cs

/-- `validate_guid` of `validators.py`:
`bool(re.match(GUID_PATTERN, guid))`. -/
def validate_guid (guid : String) : Bool :=
  match guidTail guid.data with
  | some rest => rest.isEmpty || rest = ['\n']
  | none => false

/-- The canonical GUID form exactly as the spec words it: opening brace,
8-4-4-4-12 hex digits with hyphens, closing brace, and no other
characters before or after.  (Refinement counterpart of `validate_guid`,
written from the spec, to be compared against the code's matcher.) -/
def isCanonicalGuid (s : String) : Bool :=
  match guidTail s.data with
  | some rest => rest.isEmpty
  | none => false

/-- Drop one final newline if present (the `$` tolerance). -/
def dropFinalNewline (cs : List Char) : List Char :=
  match cs.getLast? with
  | some '\n' => cs.dropLast
  | _ => cs

/-- `validate_hex_value(s, HEX_INT64_PATTERN)`:
`^0[xX][0-9A-Fa-f]\x7b1,16\x7d$`.  Since a hex digit can neither be the
final newline tolerated by `$` nor follow it, the greedy bounded repeat
is equivalent to: after the `0x`/`0X` prefix and up to one final newline,
the remainder is 1 to 16 hex digits. -/
def matchHex64 (s : String) : Bool :=
  match s.data with
  | '0' :: x :: rest =>
    (x = 'x' || x = 'X') &&
      (let body := dropFinalNewline rest
       !body.isEmpty && body.length ≤ 16 && body.all isHexChar)
  | _ => false

/-- The Culture pattern of `validate_rendering_info`:
`^[a-z]\x7b2\x7d-[A-Z]\x7b2\x7d$` with the same `$` tolerance. -/
def matchCulture (s : String) : Bool :=
  match dropFinalNewline s.data with
  | [a, b, h, c, d] =>
    ('a' ≤ a && a ≤ 'z') && ('a' ≤ b && b ≤ 'z') && h = '-' &&
      ('A' ≤ c && c ≤ 'Z') && ('A' ≤ d && d ≤ 'Z')
  | _ => false

/-! ### Dict / container access with Python exception behaviour -/

/-- Python subscript `v[k]` with a string key: `KeyError` when the key is
absent, `TypeError` on non-dicts (the embedded call sites never subscript
lists with string keys, so those also fall under `TypeError` here). -/
def subscript (v : Val) (k : String) : Except PyErr Val :=
  match v with
  | .dict es =>
    match dictLookup es k with
    | some x => .ok x
    | none => .error (.keyError k)
  | _ => .error (.typeError ("value is not subscriptable with key " ++ k))

/-- Python `k in v`: key membership for dicts, element membership (via
`==`) for lists, substring test for strings, `TypeError` for ints. -/
def pyHasKey (v : Val) (k : String) : Except PyErr Bool :=
  match v with
  | .dict es => .ok (dictLookup es k).isSome
  | .list vs => .ok (vs.any (fun x => pyEq x (.str k)))
  | .str s => .ok ((s.splitOn k).length ≠ 1)
  | .int _ => .error (.typeError "argument of type \x27int\x27 is not iterable")

/-- Python `v.get(k)`: `AttributeError` (modelled as the `TypeError`
constructor) on non-dicts. -/
def pyGet (v : Val) (k : String) : Except PyErr (Option Val) :=
  match v with
  | .dict es => .ok (dictLookup es k)
  | _ => .error (.typeError "object has no attribute \x27get\x27")

/-- Python `v.items()` as an ordered pair list; `AttributeError` on
non-dicts. -/
def pyItems (v : Val) : Except PyErr (List (String × Val)) :=
  match v with
  | .dict es => .ok es
  | _ => .error (.typeError "object has no attribute \x27items\x27")

/-- Iterate a value that the source expects to be a list; non-lists raise
(`TypeError` stands in for the various iteration failures). -/
def pyListItems (v : Val) : Except PyErr (List Val) :=
  match v with
  | .list vs => .ok vs
  | _ => .error (.typeError "value is not iterable as a list")

/-! ### The Value Provider (`utils.py`)

`get_function` / `exec_function_str` / `get_random_value`.  The module's
`func_`-prefixed attributes are `func_guid`, `func_sid`, `func_hostname`,
`func_datetime` and `func_datetime_iso8601` (note: `randint` and `randip`
lack the prefix, so `getattr(module, "func_randint")` fails).  Randomness
and the clock are abstracted as the `Env` the generator functions read. -/

/-- The generator capabilities: the `func_*` functions of `utils.py`. -/
inductive Capability where
  | guid
  | sid
  | hostname
  | datetime
  | datetime_iso8601
deriving DecidableEq

/-- `getattr(module, name)` restricted to the `func_`-prefixed module
attributes `get_function` can look up. -/
def moduleFuncs : String → Option Capability
  | "func_guid" => some .guid
  | "func_sid" => some .sid
  | "func_hostname" => some .hostname
  | "func_datetime" => some .datetime
  | "func_datetime_iso8601" => some .datetime_iso8601
  | _ => none

/-- Abstraction of the random/clock sources the generator bodies draw on:
`uuid` is the `str(uuid.uuid4())` value, `sidNum`/`hostNum` the
`random.randint` draws, `nowIso` the `datetime.now().isoformat()` text and
`nowFmt` the `strftime("%Y-%m-%dT%H:%M:%S")` text of the current time.
Every generator call within one serialization reads the same `Env`; none
of the properties proved here depends on two draws differing. -/
structure Env where
  uuid : String
  sidNum : Nat
  hostNum : Nat
  nowIso : String
  nowFmt : String

/-- The body of each `func_*` generator of `utils.py`. -/
def genOutput (env : Env) : Capability → String
  | .guid => "\x7b" ++ env.uuid ++ "\x7d"
  | .sid => "S-1-5-21-" ++ toString env.sidNum
  | .hostname => "WIN-" ++ toString env.hostNum
  | .datetime => env.nowIso
  | .datetime_iso8601 => env.nowFmt

/-- What `get_function` returns: either the `lambda: function_str` literal
fallback closure (for strings without the `func_` marker) or one of the
module's generator functions. -/
inductive FuncVal where
  | literal (s : String)
  | generator (c : Capability)
deriving DecidableEq

/-- `get_function(function_str)` of `utils.py`: non-`func_` strings give
the zero-argument literal closure; otherwise the name looked up is
`"func_" + function_str.split("_")[1]`, and a failed attribute lookup
becomes `ValueError("Unknown function: ...")`. -/
def get_function (function_str : String) : Except PyErr FuncVal :=
  if ¬ startsWithFunc function_str then .ok (.literal function_str)
  else
    let name := (splitUnderscore function_str).getD 1 ""
    match moduleFuncs ("func_" ++ name) with
    | some c => .ok (.generator c)
    | none => .error (.valueError (.msg ("Unknown function: func_" ++ name)))

/-- Call the value `get_function` produced on the remaining tokens.  Both
the literal closure and every `func_*` generator take zero parameters, so
any argument raises `TypeError`. -/
def runCall (env : Env) (f : FuncVal) (args : List String) : Except PyErr String :=
  match f, args with
  | .literal s, [] => .ok s
  | .literal _, _ :: _ => .error (.typeError "<lambda>() takes 0 positional arguments but 1 was given")
  | .generator c, [] => .ok (genOutput env c)
  | .generator _, _ :: _ => .error (.typeError "func() takes 0 positional arguments but 1 was given")

/-- `exec_function_str(function_str)` of `utils.py`: split on whitespace,
look the first token up, call with the remaining tokens.  An empty token
list makes `tokens[0]` raise `IndexError`. -/
def exec_function_str (env : Env) (function_str : String) : Except PyErr String :=
  match pySplitWs function_str with
  | [] => .error .indexError
  | t :: args =>
    match get_function t with
    | .ok f => runCall env f args
    | .error e => .error e

/-- `get_random_value(field_value)` of `utils.py`: non-strings are
stringified; strings run through `exec_function_str` with `ValueError` and
`IndexError` caught and degraded to the original string (other exceptions,
notably `TypeError`, propagate). -/
def get_random_value (env : Env) (field_value : Val) : Except PyErr String :=
  match field_value with
  | .str s =>
    match exec_function_str env s with
    | .ok r => .ok r
    | .error (.valueError _) => .ok s
    | .error .indexError => .ok s
    | .error e => .error e
  | v => .ok (pyStr v)

/-! ### `validators.py` -/

/-- The `STANDARD_CHANNELS` table. -/
def STANDARD_CHANNELS : List (String × Int) :=
  [("Application", 1), ("Security", 2), ("System", 3), ("Setup", 4), ("ForwardedEvents", 5)]

/-- `STANDARD_CHANNELS[name]` lookup. -/
def stdChannelId (name : String) : Option Int :=
  (STANDARD_CHANNELS.find? (fun p => p.1 = name)).map Prod.snd

/-- Sequence two unit computations, propagating the first failure (the
`;`-sequencing of the source's statement blocks). -/
def seqE (a b : Except PyErr Unit) : Except PyErr Unit :=
  match a with
  | .ok _ => b
  | .error e => .error e

/-- `validate_provider`: Provider must have a truthy Name or Guid; a
truthy Guid must match the GUID pattern (`re.match` on a non-string
raises `TypeError`). -/
def validate_provider (provider : Val) : Except PyErr Unit :=
  match pyGet provider "Name" with
  | .error e => .error e
  | .ok name =>
    match pyGet provider "Guid" with
    | .error e => .error e
    | .ok guid =>
      if ¬ truthy name ∧ ¬ truthy guid then
        .error (.validation .providerNameGuid)
      else if truthy guid then
        match guid with
        | some (.str g) =>
          if ¬ validate_guid g then .error (.validation (.providerGuidFormat g)) else .ok ()
        | some _ => .error (.typeError "expected string or bytes-like object")
        | none => .ok ()
      else
        .ok ()

/-- One truthy-GUID-format check of `validate_correlation`. -/
def checkCorrGuid (correlation : Val) (field : String) (mk : String → VErr) :
    Except PyErr Unit :=
  match pyGet correlation field with
  | .error e => .error e
  | .ok g =>
    if truthy g then
      match g with
      | some (.str s) =>
        if ¬ validate_guid s then .error (.validation (mk s)) else .ok ()
      | some _ => .error (.typeError "expected string or bytes-like object")
      | none => .ok ()
    else
      .ok ()

/-- `validate_correlation`: truthy ActivityID / RelatedActivityID values
must match the GUID pattern. -/
def validate_correlation (correlation : Val) : Except PyErr Unit :=
  seqE (checkCorrGuid correlation "ActivityID" .activityIdFormat)
    (checkCorrGuid correlation "RelatedActivityID" .relatedActivityIdFormat)

/-- Body of the per-field loop of `validate_execution`: a present field
must convert to a non-negative integer; `int()`'s `ValueError` becomes a
validation error, anything else (notably `TypeError`) propagates. -/
def checkExecField (execution : Val) (field : String) : Except PyErr Unit :=
  match pyHasKey execution field with
  | .error e => .error e
  | .ok has =>
    if has then
      match subscript execution field with
      | .error e => .error e
      | .ok v =>
        match pyInt v with
        | .ok value =>
          if value < 0 then .error (.validation (.execNegative field value)) else .ok ()
        | .error (.valueError _) => .error (.validation (.execInvalid field v))
        | .error e => .error e
    else
      .ok ()

/-- `validate_execution`: ProcessID and ThreadID required, then the
non-negativity loop over ProcessID, ThreadID, SessionID. -/
def validate_execution (execution : Val) : Except PyErr Unit :=
  match pyHasKey execution "ProcessID" with
  | .error e => .error e
  | .ok hasP =>
    match pyHasKey execution "ThreadID" with
    | .error e => .error e
    | .ok hasT =>
      let missing := (if hasP then [] else ["ProcessID"]) ++
        (if hasT then [] else ["ThreadID"])
      if ¬ missing.isEmpty then
        .error (.validation (.missingExecution missing))
      else
        seqE (checkExecField execution "ProcessID")
          (seqE (checkExecField execution "ThreadID")
            (checkExecField execution "SessionID"))

/-- Wrap the `int()` failures of the EventID block into the
`Invalid EventID: ... - ...` validation error (the `except (ValueError,
TypeError)` handler of `validate_system_properties`). -/
def mapEventIdErr (raw : Val) : Except PyErr Int → Except PyErr Int
  | .ok i => .ok i
  | .error (.valueError e) => .error (.validation (.invalidEventId raw e.render))
  | .error (.typeError m) => .error (.validation (.invalidEventId raw m))
  | .error e => .error e

/-- The EventID block of `validate_system_properties`: a dict needs
`_text` (converted to int) and an optionally present non-negative
`Qualifiers`; otherwise the value itself converts; the result must be
non-negative.  Conversion failures are wrapped by `mapEventIdErr`. -/
def checkEventId (eid : Val) : Except PyErr Unit :=
  match eid with
  | .dict es =>
    if (dictLookup es "_text").isNone then
      .error (.validation .eventIdNoText)
    else
      match mapEventIdErr eid (pyInt ((dictLookup es "_text").getD (.int 0))) with
      | .error e => .error e
      | .ok event_id =>
        seqE
          (match dictLookup es "Qualifiers" with
           | some q =>
             match mapEventIdErr eid (pyInt q) with
             | .error e => .error e
             | .ok qv =>
               if qv < 0 then .error (.validation (.qualifiersNegative qv)) else .ok ()
           | none => .ok ())
          (if event_id < 0 then .error (.validation (.eventIdNegative event_id)) else .ok ())
  | _ =>
    match mapEventIdErr eid (pyInt eid) with
    | .error e => .error e
    | .ok event_id =>
      if event_id < 0 then .error (.validation (.eventIdNegative event_id)) else .ok ()

/-- The Provider block of `validate_system_properties`. -/
def sysProviderStep (system : Val) : Except PyErr Unit :=
  match subscript system "Provider" with
  | .error e => .error e
  | .ok p => validate_provider p

/-- The EventID block of `validate_system_properties`. -/
def sysEventIdStep (system : Val) : Except PyErr Unit :=
  match subscript system "EventID" with
  | .error e => .error e
  | .ok eid => checkEventId eid

/-- The optional-Correlation block of `validate_system_properties`. -/
def sysCorrelationStep (system : Val) : Except PyErr Unit :=
  match pyHasKey system "Correlation" with
  | .error e => .error e
  | .ok has =>
    if has then
      match subscript system "Correlation" with
      | .error e => .error e
      | .ok c => validate_correlation c
    else
      .ok ()

/-- The optional-Execution block of `validate_system_properties`. -/
def sysExecutionStep (system : Val) : Except PyErr Unit :=
  match pyHasKey system "Execution" with
  | .error e => .error e
  | .ok has =>
    if has then
      match subscript system "Execution" with
      | .error e => .error e
      | .ok ex => validate_execution ex
    else
      .ok ()

/-- The Keywords block of `validate_system_properties`. -/
def sysKeywordsStep (system : Val) : Except PyErr Unit :=
  match pyHasKey system "Keywords" with
  | .error e => .error e
  | .ok has =>
    if has then
      match subscript system "Keywords" with
      | .error e => .error e
      | .ok kw =>
        match kw with
        | .str s =>
          if ¬ matchHex64 s then .error (.validation (.keywordsFormat kw)) else .ok ()
        | _ => .error (.typeError "expected string or bytes-like object")
    else
      .ok ()

/-- The Version block of `validate_system_properties` (the `int()` there is
not inside any handler, so its `ValueError` propagates raw). -/
def sysVersionStep (system : Val) : Except PyErr Unit :=
  match pyHasKey system "Version" with
  | .error e => .error e
  | .ok has =>
    if has then
      match subscript system "Version" with
      | .error e => .error e
      | .ok v =>
        match pyInt v with
        | .error e => .error e
        | .ok version =>
          if ¬ (0 ≤ version ∧ version ≤ 255) then
            .error (.validation (.versionRange version))
          else
            .ok ()
    else
      .ok ()

/-- The Level block of `validate_system_properties` (same raw `int()`). -/
def sysLevelStep (system : Val) : Except PyErr Unit :=
  match pyHasKey system "Level" with
  | .error e => .error e
  | .ok has =>
    if has then
      match subscript system "Level" with
      | .error e => .error e
      | .ok v =>
        match pyInt v with
        | .error e => .error e
        | .ok level =>
          if ¬ (0 ≤ level ∧ level ≤ 15) then
            .error (.validation (.levelRange level))
          else
            .ok ()
    else
      .ok ()

/-- `validate_system_properties` of `validators.py`: required keys, then
the blocks in source order. -/
def validate_system_properties (system : Val) : Except PyErr Unit :=
  match pyHasKey system "Provider" with
  | .error e => .error e
  | .ok hasProv =>
    match pyHasKey system "EventID" with
    | .error e => .error e
    | .ok hasEid =>
      match pyHasKey system "Computer" with
      | .error e => .error e
      | .ok hasComp =>
        let missing := (if hasProv then [] else ["Provider"]) ++
          (if hasEid then [] else ["EventID"]) ++ (if hasComp then [] else ["Computer"])
        if ¬ missing.isEmpty then
          .error (.validation (.missingSystem missing))
        else
          seqE (sysProviderStep system)
            (seqE (sysEventIdStep system)
              (seqE (sysCorrelationStep system)
                (seqE (sysExecutionStep system)
                  (seqE (sysKeywordsStep system)
                    (seqE (sysVersionStep system) (sysLevelStep system))))))

/-- The accepted boolean lexicon of `validate_event_data`. -/
def boolLexicon : List String := ["yes", "no", "true", "false", "0", "1", "func_bool"]

/-- Body of the per-entry loop of `validate_event_data`. -/
def validateDataElem (data : Val) : Except PyErr Unit :=
  match data with
  | .dict es =>
    if (dictLookup es "Name").isNone then
      .error (.validation .dataElemNoName)
    else if (match dictLookup es "Type" with
             | some t => pyEq t (.str "win:Boolean")
             | none => false) then
      let value := pyLower (pyStr ((dictLookup es "_text").getD (.str "")))
      if boolLexicon.contains value then .ok ()
      else .error (.validation (.invalidBool ((dictLookup es "Name").getD (.int 0)) value))
    else
      .ok ()
  | _ => .error (.validation .dataElemNotDict)

/-- The entry loop of `validate_event_data`, in list order. -/
def validateDataList : List Val → Except PyErr Unit
  | [] => .ok ()
  | d :: rest => seqE (validateDataElem d) (validateDataList rest)

/-- `validate_event_data` of `validators.py`: if `Data` is present it must
be a list and each entry must pass `validateDataElem`. -/
def validate_event_data (event_data : Val) : Except PyErr Unit :=
  match pyHasKey event_data "Data" with
  | .error e => .error e
  | .ok has =>
    if has then
      match subscript event_data "Data" with
      | .error e => .error e
      | .ok d =>
        match d with
        | .list items => validateDataList items
        | _ => .error (.validation .eventDataNotList)
    else
      .ok ()

/-! ### The event descriptor (`windows_event.py`, `validators.py`) -/

/-- The `EventDescriptor` dataclass of `windows_event.py`. -/
structure EventDescriptor where
  Id : Int
  Version : Int
  Channel : Int
  Level : Int
  Opcode : Int
  Task : Int
  Keyword : Int
deriving DecidableEq

/-- The Keyword conversion of `validate_event_descriptor`:
`int(x, 16) if isinstance(x, str) else int(x)`. -/
def keywordParse (v : Val) : Except PyErr Int :=
  match v with
  | .str s => pyIntBase16Str s
  | _ => pyInt v

/-- Subscript a descriptor field and convert it with `int()` (one
constructor argument of the `EventDescriptor(...)` call). -/
def descConv (d : Val) (f : String) : Except PyErr Int :=
  match subscript d f with
  | .error e => .error e
  | .ok v => pyInt v

/-- Subscript the Keyword field and convert it with the Keyword
conversion. -/
def descConvKeyword (d : Val) : Except PyErr Int :=
  match subscript d "Keyword" with
  | .error e => .error e
  | .ok v => keywordParse v

/-- Body of the `try` block of `validate_event_descriptor` (missing-field
check, field conversions in the source's argument order, range checks). -/
def vedBody (descriptor : Val) : Except PyErr EventDescriptor :=
  match pyHasKey descriptor "Id" with
  | .error e => .error e
  | .ok hasId =>
  match pyHasKey descriptor "Version" with
  | .error e => .error e
  | .ok hasVer =>
  match pyHasKey descriptor "Channel" with
  | .error e => .error e
  | .ok hasCh =>
  match pyHasKey descriptor "Level" with
  | .error e => .error e
  | .ok hasLvl =>
  match pyHasKey descriptor "Opcode" with
  | .error e => .error e
  | .ok hasOp =>
  match pyHasKey descriptor "Task" with
  | .error e => .error e
  | .ok hasTask =>
  match pyHasKey descriptor "Keyword" with
  | .error e => .error e
  | .ok hasKw =>
  let missing := (if hasId then [] else ["Id"]) ++ (if hasVer then [] else ["Version"]) ++
    (if hasCh then [] else ["Channel"]) ++ (if hasLvl then [] else ["Level"]) ++
    (if hasOp then [] else ["Opcode"]) ++ (if hasTask then [] else ["Task"]) ++
    (if hasKw then [] else ["Keyword"])
  if ¬ missing.isEmpty then
    .error (.validation (.missingDescriptorFields missing))
  else
    match descConv descriptor "Id" with
    | .error e => .error e
    | .ok id =>
    match descConv descriptor "Version" with
    | .error e => .error e
    | .ok version =>
    match descConv descriptor "Channel" with
    | .error e => .error e
    | .ok channel =>
    match descConv descriptor "Level" with
    | .error e => .error e
    | .ok level =>
    match descConv descriptor "Opcode" with
    | .error e => .error e
    | .ok opcode =>
    match descConv descriptor "Task" with
    | .error e => .error e
    | .ok task =>
    match descConvKeyword descriptor with
    | .error e => .error e
    | .ok keyword =>
      if ¬ (0 ≤ level ∧ level ≤ 15) then
        .error (.validation (.descLevelRange level))
      else if ¬ (0 ≤ opcode ∧ opcode ≤ 240) then
        .error (.validation (.descOpcodeRange opcode))
      else if task < 0 then
        .error (.validation (.descTaskNegative task))
      else
        .ok ⟨id, version, channel, level, opcode, task, keyword⟩

/-- `validate_event_descriptor` of `validators.py`: the body with its
`except (ValueError, TypeError)` handler turning conversion failures into
`Invalid value in EventDescriptor: ...`. -/
def validate_event_descriptor (descriptor : Val) : Except PyErr EventDescriptor :=
  match vedBody descriptor with
  | .error (.valueError e) => .error (.validation (.descriptorInvalidValue e.render))
  | .error (.typeError m) => .error (.validation (.descriptorInvalidValue m))
  | r => r

/-! ### `windows_event_types.py` -/

/-- `[e.value for e in SecurityEventID]`, in enum definition order. -/
def securityCatalog : List Int := [4624, 4625, 4720, 4722, 4723, 4740, 4726]

/-- The `required_fields` of the `LOGON_SUCCESS` (4624) template, in
catalog order. -/
def required4624 : List String :=
  ["SubjectUserSid", "SubjectUserName", "SubjectDomainName", "SubjectLogonId",
   "LogonType", "RestrictedAdminMode", "VirtualAccount", "ElevatedToken"]

/-- The `field_types` of the `LOGON_SUCCESS` (4624) template. -/
def fieldTypes4624 : List (String × String) :=
  [("SubjectUserSid", "win:SID"), ("SubjectUserName", "win:UnicodeString"),
   ("SubjectDomainName", "win:UnicodeString"), ("SubjectLogonId", "win:HexInt64"),
   ("LogonType", "win:UInt32"), ("RestrictedAdminMode", "win:Boolean"),
   ("VirtualAccount", "win:Boolean"), ("ElevatedToken", "win:Boolean")]

/-- `template["field_types"].get(name)` with the dict-key `==` semantics
(`name` is a Data entry's `Name` value, which may be any hashable value). -/
def fieldTypeFor (n : Val) : Option String :=
  (fieldTypes4624.find? (fun p => pyEq n (.str p.1))).map Prod.snd

/-- Assignment into the name-indexed dict being built by the
comprehension: Python dicts keep the original position of a repeated key
and replace its value. -/
def assocUpdate (m : List (Val × Val)) (k v : Val) : List (Val × Val) :=
  if m.any (fun p => pyEq p.1 k) then
    m.map (fun p => if pyEq p.1 k then (k, v) else p)
  else
    m ++ [(k, v)]

/-- The dict comprehension
`\x7bitem[\x27Name\x27]: item for item in data[\x27Data\x27]\x7d`:
each item subscripted with `Name` (`KeyError` when absent, `TypeError` on
non-dict items or unhashable Name values). -/
def buildDataFieldsAux (acc : List (Val × Val)) : List Val → Except PyErr (List (Val × Val))
  | [] => .ok acc
  | item :: rest =>
    match item with
    | .dict es =>
      match dictLookup es "Name" with
      | some n =>
        match n with
        | .dict _ => .error (.typeError "unhashable type: \x27dict\x27")
        | .list _ => .error (.typeError "unhashable type: \x27list\x27")
        | _ => buildDataFieldsAux (assocUpdate acc n (.dict es)) rest
      | none => .error (.keyError "Name")
    | _ => .error (.typeError "item is not subscriptable")

/-- The `field_data.get(\x27Type\x27) != expected_type` test of
`validate_security_event` (`None` differs from every string). -/
def typeDiffers (actual : Option Val) (expected : String) : Bool :=
  match actual with
  | some t => !(pyEq t (.str expected))
  | none => true

/-- The field-type loop of `validate_security_event`: over the
name-indexed entries in dict order; a `Name` with a declared type whose
entry's `Type` differs raises. -/
def checkFieldTypes : List (Val × Val) → Except PyErr Unit
  | [] => .ok ()
  | (n, fd) :: rest =>
    match fieldTypeFor n with
    | some expected =>
      if typeDiffers (fd.lookup "Type") expected then
        .error (.valueError (.sec (.typeMismatch n expected (fd.lookup "Type"))))
      else
        checkFieldTypes rest
    | none => checkFieldTypes rest

/-- `SecurityEventID(event_id)`: the enum lookup by value, a `ValueError`
when the raw value is not one of the catalog's integers. -/
def secEnumLookup (event_idv : Val) : Except PyErr Int :=
  match event_idv with
  | .int i =>
    if securityCatalog.contains i then Except.ok i
    else .error (.valueError (.sec (.unknownId event_idv)))
  | _ => .error (.valueError (.sec (.unknownId event_idv)))

/-- `validate_security_event(event_id, data)` of `windows_event_types.py`.
`event_id` is the raw configuration value (the caller passes
`config[\x27event_descriptor\x27][\x27Id\x27]` through unconverted).  All
failures are `ValueError`s, as in the source; only the 4624 catalog entry
has a template. -/
def validate_security_event (event_idv : Val) (data : Val) : Except PyErr Unit :=
  match secEnumLookup event_idv with
  | .error e => .error e
  | .ok event_id =>
    if event_id ≠ 4624 then
      .error (.valueError (.sec (.noTemplate event_id)))
    else
      match pyHasKey data "Data" with
      | .error e => .error e
      | .ok hasData =>
        if ¬ hasData then
          .error (.valueError (.sec .noDataArray))
        else
          match subscript data "Data" with
          | .error e => .error e
          | .ok dataVal =>
            match (if truthy (some dataVal) then
                     match dataVal with
                     | .list items => buildDataFieldsAux [] items
                     | _ => .error (.typeError "value is not iterable as a list")
                   else
                     Except.ok ([] : List (Val × Val))) with
            | .error e => .error e
            | .ok data_fields =>
              let missing := required4624.filter
                (fun f => ¬ data_fields.any (fun p => pyEq p.1 (.str f)))
              if ¬ missing.isEmpty then
                .error (.valueError (.sec (.missingFields event_id missing)))
              else
                checkFieldTypes data_fields

/-- `validate_security_event_data` of `validators.py`: structure check,
then `validate_security_event` with `ValueError` wrapped as
`Security Event validation failed: ...`. -/
def validate_security_event_data (event_data : Val) (event_idv : Val) : Except PyErr Unit :=
  match event_data with
  | .dict _ =>
    match validate_security_event event_idv event_data with
    | .error (.valueError e) => .error (.validation (.securityFailed e))
    | r => r
  | _ => .error (.validation .securityDataNotDict)

/-- The Keywords block of `validate_rendering_info`. -/
def renderingKeywordsStep (rendering : Val) : Except PyErr Unit :=
  match pyHasKey rendering "Keywords" with
  | .error e => .error e
  | .ok hasK =>
    if hasK then
      match subscript rendering "Keywords" with
      | .error e => .error e
      | .ok keywords =>
        match keywords with
        | .dict kes =>
          (match dictLookup kes "Keyword" with
           | none => .error (.validation .renderingKeywordsBad)
           | some (.list l) =>
             if l.length > 64 then .error (.validation .tooManyKeywords) else .ok ()
           | some _ => .error (.validation .keywordListBad))
        | _ => .error (.validation .renderingKeywordsBad)
    else
      .ok ()

/-- `validate_rendering_info` of `validators.py`. -/
def validate_rendering_info (rendering : Val) : Except PyErr Unit :=
  match pyHasKey rendering "Culture" with
  | .error e => .error e
  | .ok hasC =>
    if ¬ hasC then
      .error (.validation .renderingNoCulture)
    else
      match subscript rendering "Culture" with
      | .error e => .error e
      | .ok culture =>
        seqE
          (match culture with
           | .str c =>
             if ¬ matchCulture c then .error (.validation (.invalidCulture culture)) else .ok ()
           | _ => .error (.typeError "expected string or bytes-like object"))
          (renderingKeywordsStep rendering)

/-! ### `validate_windows_event_config`

Split, in source order, into the stages before the standard-channel
cross-check (`vwecPre`), the cross-check itself (`vwecChannel`) and the
stages after it (`vwecPost`); `validate_windows_event_config` is their
sequence. -/

/-- Stages of `validate_windows_event_config` before the channel
cross-check: required top-level keys, template shape, `System` presence,
`validate_system_properties`, `validate_event_descriptor`. -/
def vwecPre (config : Val) : Except PyErr Unit :=
  match pyHasKey config "event_descriptor" with
  | .error e => .error e
  | .ok h1 =>
  match pyHasKey config "template" with
  | .error e => .error e
  | .ok h2 =>
  match pyHasKey config "Event" with
  | .error e => .error e
  | .ok h3 =>
  let missing := (if h1 then [] else ["event_descriptor"]) ++
    (if h2 then [] else ["template"]) ++ (if h3 then [] else ["Event"])
  if ¬ missing.isEmpty then
    .error (.validation (.missingTopFields missing))
  else
    match subscript config "template" with
    | .error e => .error e
    | .ok (.dict tes) =>
      if (dictLookup tes "message").isNone ∨ (dictLookup tes "values").isNone then
        .error (.validation .templateMissing)
      else
        match subscript config "Event" with
        | .error e => .error e
        | .ok event =>
          match pyHasKey event "System" with
          | .error e => .error e
          | .ok hasSys =>
            if ¬ hasSys then
              .error (.validation .missingSystemInEvent)
            else
              match subscript event "System" with
              | .error e => .error e
              | .ok system =>
                seqE (validate_system_properties system)
                  (match subscript config "event_descriptor" with
                   | .error e => .error e
                   | .ok desc =>
                     match validate_event_descriptor desc with
                     | .error e => .error e
                     | .ok _ => .ok ())
    | .ok _ => .error (.validation .templateNotDict)

/-- The standard-channel cross-check of `validate_windows_event_config`:
if `System.Channel` is a standard channel name, the raw
`event_descriptor[\x27Channel\x27]` value must `==` the table id.  Dict or
list channel names are unhashable dict keys (`TypeError`); other non-names
are simply not in the table. -/
def vwecChannel (config : Val) : Except PyErr Unit :=
  match subscript config "Event" with
  | .error e => .error e
  | .ok event =>
    match subscript event "System" with
    | .error e => .error e
    | .ok system =>
      match pyHasKey system "Channel" with
      | .error e => .error e
      | .ok hasCh =>
        if hasCh then
          match subscript system "Channel" with
          | .error e => .error e
          | .ok (.str name) =>
            (match stdChannelId name with
             | some cid =>
               match subscript config "event_descriptor" with
               | .error e => .error e
               | .ok desc =>
                 match subscript desc "Channel" with
                 | .error e => .error e
                 | .ok dch =>
                   if ¬ pyEq dch (.int cid) then
                     .error (.validation (.channelMismatch name))
                   else
                     .ok ()
             | none => .ok ())
          | .ok (.int _) => .ok ()
          | .ok (.dict _) => .error (.typeError "unhashable type: \x27dict\x27")
          | .ok (.list _) => .error (.typeError "unhashable type: \x27list\x27")
        else
          .ok ()

/-- The security-event block of `validate_windows_event_config`. -/
def vwecSecurityStep (event : Val) (event_idv : Val) : Except PyErr Unit :=
  if securityCatalog.any (fun i => pyEq event_idv (.int i)) then
    match pyHasKey event "EventData" with
    | .error e => .error e
    | .ok hasED =>
      if ¬ hasED then
        .error (.validation (.securityRequiresEventData event_idv))
      else
        match subscript event "EventData" with
        | .error e => .error e
        | .ok ed => validate_security_event_data ed event_idv
  else
    .ok ()

/-- The optional-RenderingInfo block of `validate_windows_event_config`. -/
def vwecRenderingStep (event : Val) : Except PyErr Unit :=
  match pyHasKey event "RenderingInfo" with
  | .error e => .error e
  | .ok hasRI =>
    if hasRI then
      match subscript event "RenderingInfo" with
      | .error e => .error e
      | .ok ri => validate_rendering_info ri
    else
      .ok ()

/-- The optional-EventData block of `validate_windows_event_config`. -/
def vwecEventDataStep (event : Val) : Except PyErr Unit :=
  match pyHasKey event "EventData" with
  | .error e => .error e
  | .ok hasED =>
    if hasED then
      match subscript event "EventData" with
      | .error e => .error e
      | .ok ed => validate_event_data ed
    else
      .ok ()

/-- Stages of `validate_windows_event_config` after the channel
cross-check: the security-event check, `RenderingInfo`, `EventData`. -/
def vwecPost (config : Val) : Except PyErr Unit :=
  match subscript config "event_descriptor" with
  | .error e => .error e
  | .ok desc =>
    match subscript desc "Id" with
    | .error e => .error e
    | .ok event_idv =>
      match subscript config "Event" with
      | .error e => .error e
      | .ok event =>
        seqE (vwecSecurityStep event event_idv)
          (seqE (vwecRenderingStep event) (vwecEventDataStep event))

/-- `validate_windows_event_config` of `validators.py`: the full
validation sequence. -/
def validate_windows_event_config (config : Val) : Except PyErr Unit :=
  seqE (vwecPre config) (seqE (vwecChannel config) (vwecPost config))

/-! ### The serializer: `get_windows_event_log` (`utils.py`)

The XML assembly loops are embedded as accumulating recursions in the
exact iteration order of the source; attribute strings `k="..."` are built
with the source's f-strings.  System attribute and text values pass
through `get_random_value`; `Data` attribute values are interpolated
literally (only `_text` is resolved). -/

/-- The inner `for k, v in value.items()` loop of the System section:
`_text` is resolved into the element text (last assignment wins), every
other key appends a resolved `k="..."` attribute. -/
def systemPartsAux (env : Env) (acc : List String) (text : String) :
    List (String × Val) → Except PyErr (List String × String)
  | [] => .ok (acc.reverse, text)
  | (k, v) :: rest =>
    if k = "_text" then
      match get_random_value env v with
      | .ok t => systemPartsAux env acc t rest
      | .error e => .error e
    else
      match get_random_value env v with
      | .ok r => systemPartsAux env ((k ++ "=\"" ++ r ++ "\"") :: acc) text rest
      | .error e => .error e

/-- The inner `for k, v in data.items()` loop of the EventData section:
`_text` is resolved, every other key appends a literal `k="..."`
attribute (`v` interpolated by the f-string, not resolved). -/
def dataPartsAux (env : Env) (acc : List String) (text : String) :
    List (String × Val) → Except PyErr (List String × String)
  | [] => .ok (acc.reverse, text)
  | (k, v) :: rest =>
    if k = "_text" then
      match get_random_value env v with
      | .ok t => dataPartsAux env acc t rest
      | .error e => .error e
    else
      dataPartsAux env ((k ++ "=\"" ++ pyStr v ++ "\"") :: acc) text rest

/-- One System field line: dict values get attributes/text from
`systemPartsAux`, any other value becomes resolved element text. -/
def systemFieldLine (env : Env) (key : String) (value : Val) : Except PyErr String :=
  match value with
  | .dict es =>
    match systemPartsAux env [] "" es with
    | .ok (attrs, text) =>
      if ¬ attrs.isEmpty then
        .ok ("    <" ++ key ++ " " ++ joinWith " " attrs ++ ">" ++ text ++ "</" ++ key ++ ">")
      else
        .ok ("    <" ++ key ++ ">" ++ text ++ "</" ++ key ++ ">")
    | .error e => .error e
  | _ =>
    match get_random_value env value with
    | .ok r => .ok ("    <" ++ key ++ ">" ++ r ++ "</" ++ key ++ ">")
    | .error e => .error e

/-- The `for key, value in system.items()` loop, emitting one line per
field in mapping order. -/
def systemLines (env : Env) : List (String × Val) → Except PyErr (List String)
  | [] => .ok []
  | (k, v) :: rest =>
    match systemFieldLine env k v with
    | .ok line =>
      match systemLines env rest with
      | .ok lines => .ok (line :: lines)
      | .error e => .error e
    | .error e => .error e

/-- One `Data` element line (each entry of
`config[\x27Event\x27][\x27EventData\x27][\x27Data\x27]` is iterated with
`.items()`, so non-dict entries raise). -/
def dataEntryLine (env : Env) (entry : Val) : Except PyErr String :=
  match entry with
  | .dict es =>
    match dataPartsAux env [] "" es with
    | .ok (attrs, text) =>
      if ¬ attrs.isEmpty then
        .ok ("    <Data " ++ joinWith " " attrs ++ ">" ++ text ++ "</Data>")
      else
        .ok ("    <Data>" ++ text ++ "</Data>")
    | .error e => .error e
  | _ => .error (.typeError "object has no attribute \x27items\x27")

/-- The `for data in ...[\x27Data\x27]` loop, one line per entry in list
order. -/
def dataLines (env : Env) : List Val → Except PyErr (List String)
  | [] => .ok []
  | d :: rest =>
    match dataEntryLine env d with
    | .ok line =>
      match dataLines env rest with
      | .ok lines => .ok (line :: lines)
      | .error e => .error e
    | .error e => .error e

/-- The EventData section of the serializer: emitted only when
`EventData` is present, by subscripting down to `Data` (a missing `Data`
key is a `KeyError`) and iterating it. -/
def getEventDataSection (env : Env) (event : Val) : Except PyErr (List String) :=
  if (event.lookup "EventData").isSome then
    match subscript event "EventData" with
    | .error e => .error e
    | .ok ed =>
      match subscript ed "Data" with
      | .error e => .error e
      | .ok dataVal =>
        match pyListItems dataVal with
        | .error e => .error e
        | .ok items =>
          match dataLines env items with
          | .error e => .error e
          | .ok dls => .ok (["  <EventData>"] ++ dls ++ ["  </EventData>"])
  else
    .ok []

/-- `get_windows_event_log(config)` of `utils.py`: validate the whole
configuration, then assemble the XML line list and join it with newlines.
The source's `try/except` handlers log and re-raise, so every exception
still propagates. -/
def get_windows_event_log (env : Env) (config : Val) : Except PyErr String :=
  match validate_windows_event_config config with
  | .error e => .error e
  | .ok _ =>
    match subscript config "Event" with
    | .error e => .error e
    | .ok event =>
      match subscript event "System" with
      | .error e => .error e
      | .ok system =>
        match pyItems system with
        | .error e => .error e
        | .ok sysEntries =>
          match systemLines env sysEntries with
          | .error e => .error e
          | .ok sysLs =>
            match getEventDataSection env event with
            | .error e => .error e
            | .ok dataSection =>
              .ok (joinWith "\n"
                (["<?xml version=\"1.0\" encoding=\"UTF-8\"?>",
                  "<Event xmlns=\"http://schemas.microsoft.com/win/2004/08/events/event\">",
                  "  <System>"] ++ sysLs ++ ["  </System>"] ++ dataSection ++ ["</Event>"]))

/-! ## Concrete inputs used by the claim theorems -/

/-- A concrete environment (randomness/clock outcome) for evaluating the
generator functions: a fixed uuid draw, fixed numeric draws, and a clock
reading whose `isoformat()` text carries microseconds while its
`strftime("%Y-%m-%dT%H:%M:%S")` text does not. -/
def env0 : Env :=
  ⟨"12345678-1234-5678-1234-567812345678", 5, 7,
   "2024-02-20T10:00:00.123456", "2024-02-20T10:00:00"⟩

/-- An `EventData.Data` entry with Name, Type and text. -/
def dataEntry (n t x : String) : Val :=
  .dict [("Name", .str n), ("Type", .str t), ("_text", .str x)]

/-- The eight correctly-typed `LOGON_SUCCESS` Data entries of the test
suite's valid configuration. -/
def logonData : List Val :=
  [dataEntry "SubjectUserSid" "win:SID" "func_sid",
   dataEntry "SubjectUserName" "win:UnicodeString" "TestUser",
   dataEntry "SubjectDomainName" "win:UnicodeString" "DOMAIN",
   dataEntry "SubjectLogonId" "win:HexInt64" "0x123456",
   dataEntry "LogonType" "win:UInt32" "2",
   dataEntry "RestrictedAdminMode" "win:Boolean" "No",
   dataEntry "VirtualAccount" "win:Boolean" "No",
   dataEntry "ElevatedToken" "win:Boolean" "Yes"]

/-- A complete 4624 configuration, as the test suite's valid
configuration, except that `Computer` is the two-word literal
`"Test Computer"` (no generator marker anywhere in it). -/
def c1Config : Val :=
  .dict [
    ("event_descriptor", .dict [
      ("Id", .int 4624), ("Version", .int 0), ("Channel", .int 2),
      ("Level", .int 0), ("Opcode", .int 0), ("Task", .int 12544),
      ("Keyword", .str "0x8020000000000000")]),
    ("template", .dict [
      ("message", .str "An account was successfully logged on."),
      ("values", .list [.str "func_sid"])]),
    ("Event", .dict [
      ("System", .dict [
        ("Provider", .dict [
          ("Name", .str "Microsoft-Windows-Security-Auditing"),
          ("Guid", .str "\x7b54849625-5478-4994-A5BA-3E3B0328C30D\x7d")]),
        ("EventID", .dict [("_text", .str "4624"), ("Qualifiers", .str "0")]),
        ("Version", .str "0"),
        ("Level", .str "0"),
        ("Task", .str "12544"),
        ("Opcode", .str "0"),
        ("Keywords", .str "0x8020000000000000"),
        ("TimeCreated", .dict [("SystemTime", .str "func_datetime_iso8601")]),
        ("EventRecordID", .str "1234"),
        ("Correlation", .dict [
          ("ActivityID", .str "\x7b12345678-1234-5678-1234-567812345678\x7d")]),
        ("Execution", .dict [("ProcessID", .str "1234"), ("ThreadID", .str "5678")]),
        ("Channel", .str "Security"),
        ("Computer", .str "Test Computer")]),
      ("EventData", .dict [("Data", .list logonData)])])]

/-! ## C1 -/

/-- C1: "For every configuration mapping accepted by the full validator,
the serializer succeeds and returns text: serialization after validation
has no failure path."  The code violates this: `c1Config` passes
`validate_windows_event_config`, yet `get_windows_event_log` raises
`TypeError`, because the literal fallback closure returned by
`get_function` for the non-generator value `"Test Computer"` takes no
arguments while `exec_function_str` calls it on the second token, and
`get_random_value` only catches `ValueError`/`IndexError`. -/
theorem c1_validated_config_serialization_raises :
    validate_windows_event_config c1Config = .ok () ∧
    get_windows_event_log env0 c1Config =
      .error (.typeError "<lambda>() takes 0 positional arguments but 1 was given") :=
  ⟨rfl, rfl⟩

/-! ## C7 -/

/-- C7: "a field specification carrying the generator-invocation marker
whose first token does not name a registered capability never raises: the
original string is returned unchanged."  The code violates this:
`"func_guid_x"` carries the marker and names no registered capability
(`moduleFuncs "func_guid_x" = none`), yet the `split("_")[1]` lookup of
`get_function` dispatches it to the guid generator, so
`get_random_value` returns a fresh GUID instead of the original text —
and with an argument token (`"func_guid_x 1"`) the zero-parameter
generator call raises `TypeError` and aborts the record. -/
theorem c7_unknown_generator_not_degraded :
    startsWithFunc "func_guid_x" = true ∧
    moduleFuncs "func_guid_x" = none ∧
    get_random_value env0 (.str "func_guid_x") =
      .ok "\x7b12345678-1234-5678-1234-567812345678\x7d" ∧
    "\x7b12345678-1234-5678-1234-567812345678\x7d" ≠ "func_guid_x" ∧
    pySplitWs "func_guid_x 1" = ["func_guid_x", "1"] ∧
    get_random_value env0 (.str "func_guid_x 1") =
      .error (.typeError "func() takes 0 positional arguments but 1 was given") :=
  ⟨rfl, rfl, rfl, by decide, rfl, rfl⟩

/-! ## C10 -/

/-- C10: "get_function applied to the specification string for
datetime_iso8601 returns the function registered under that name
(func_datetime_iso8601), not any other capability's function."  The code
violates this: `func_datetime_iso8601` is a registered module attribute,
but `get_function` keys the lookup on `split("_")[1]` = `"datetime"` and
returns `func_datetime`, whose output is the `isoformat()` text (with
microseconds) rather than the `strftime` text. -/
theorem c10_datetime_iso8601_dispatches_to_datetime :
    moduleFuncs "func_datetime_iso8601" = some .datetime_iso8601 ∧
    (splitUnderscore "func_datetime_iso8601").getD 1 "" = "datetime" ∧
    get_function "func_datetime_iso8601" = .ok (.generator .datetime) ∧
    Capability.datetime ≠ Capability.datetime_iso8601 ∧
    get_random_value env0 (.str "func_datetime_iso8601") = .ok "2024-02-20T10:00:00.123456" ∧
    genOutput env0 .datetime_iso8601 = "2024-02-20T10:00:00" :=
  ⟨rfl, rfl, rfl, by decide, rfl, rfl⟩

/-! ## C2 -/

/-- A descriptor with all seven fields whose converted values satisfy the
claim's stated success condition (`Level ≤ 15`, `Opcode ≤ 240`,
`Task ≥ 0`) but with a negative Level. -/
def c2Descriptor : Val :=
  .dict [("Id", .int 1), ("Version", .int 0), ("Channel", .int 1),
         ("Level", .int (-1)), ("Opcode", .int 0), ("Task", .int 0), ("Keyword", .int 0)]

/-- C2 counterexample: `c2Descriptor` has all seven fields and its
converted values satisfy `Level ≤ 15 ∧ Opcode ≤ 240 ∧ Task ≥ 0`, so the
claim says `validate_event_descriptor` returns a complete descriptor; the
code instead rejects it, because the range check also enforces the lower
bound `0 ≤ Level`. -/
theorem c2_counterexample :
    (["Id", "Version", "Channel", "Level", "Opcode", "Task", "Keyword"].all
      (fun f => (Val.lookup c2Descriptor f).isSome)) = true ∧
    ((-1 : Int) ≤ 15 ∧ (0 : Int) ≤ 240 ∧ (0 : Int) ≥ 0) ∧
    validate_event_descriptor c2Descriptor =
      .error (.validation (.descLevelRange (-1))) :=
  ⟨rfl, by decide, rfl⟩

/-! ## C6 -/

/-- A descriptor whose Keyword is the decimal-digit string `"10"`. -/
def c6Descriptor : Val :=
  .dict [("Id", .int 1), ("Version", .int 0), ("Channel", .int 1),
         ("Level", .int 0), ("Opcode", .int 0), ("Task", .int 0), ("Keyword", .str "10")]

/-- C6 counterexample: the claim says a string Keyword of decimal digits
without a hex prefix parses to its decimal reading; the code passes every
string to `int(x, 16)`, so `"10"` (decimal reading 10) parses to 16, and
`validate_event_descriptor` stores 16 in the returned descriptor. -/
theorem c6_counterexample :
    ("10".data.all isDecDigit) = true ∧
    decNatVal "10".data = 10 ∧
    keywordParse (.str "10") = .ok 16 ∧
    validate_event_descriptor c6Descriptor = .ok ⟨1, 0, 1, 0, 0, 0, 16⟩ ∧
    (16 : Int) ≠ 10 :=
  ⟨rfl, rfl, rfl, rfl, by decide⟩

/-! ## C5 -/

/-- C5 counterexample: `re.match`'s trailing `$` also matches just before
one final newline, so `validate_guid` accepts a canonical GUID followed by
`"\n"` — a string with a character after the closing brace, which the
claim says must be rejected. -/
theorem c5_counterexample :
    validate_guid "\x7b12345678-1234-5678-1234-567812345678\x7d\n" = true ∧
    isCanonicalGuid "\x7b12345678-1234-5678-1234-567812345678\x7d\n" = false :=
  ⟨rfl, rfl⟩

/-! ### Parser lemmas for the GUID matcher -/

theorem consume_append (p : Char → Bool) :
    ∀ (n : Nat) (cs r ys : List Char), consume p n cs = some r →
      consume p n (cs ++ ys) = some (r ++ ys) := by
  intro n
  induction n with
  | zero =>
    intro cs r ys h
    simp [consume] at h
    simp [consume, h]
  | succ m ih =>
    intro cs r ys h
    cases cs with
    | nil => simp [consume] at h
    | cons c cs' =>
      simp only [consume] at h ⊢
      by_cases hp : p c
      · simp [hp] at h ⊢
        exact ih cs' r ys h
      · simp [hp] at h

theorem consume_split (p : Char → Bool) :
    ∀ (n : Nat) (cs r : List Char), consume p n cs = some r →
      ∃ pre, cs = pre ++ r ∧ consume p n pre = some [] := by
  intro n
  induction n with
  | zero =>
    intro cs r h
    simp [consume] at h
    exact ⟨[], by simp [h], by simp [consume]⟩
  | succ m ih =>
    intro cs r h
    cases cs with
    | nil => simp [consume] at h
    | cons c cs' =>
      simp only [consume] at h
      by_cases hp : p c
      · simp [hp] at h
        obtain ⟨pre, hpre, hcons⟩ := ih cs' r h
        refine ⟨c :: pre, by simp [hpre], ?_⟩
        simp [consume, hp, hcons]
      · simp [hp] at h

theorem expectChar_append (c : Char) :
    ∀ (cs r ys : List Char), expectChar c cs = some r →
      expectChar c (cs ++ ys) = some (r ++ ys) := by
  intro cs r ys h
  cases cs with
  | nil => simp [expectChar] at h
  | cons x xs =>
    simp only [expectChar] at h ⊢
    by_cases hx : x = c
    · simp [hx] at h ⊢
      simp [h]
    · simp [hx] at h

theorem expectChar_split (c : Char) :
    ∀ (cs r : List Char), expectChar c cs = some r →
      ∃ pre, cs = pre ++ r ∧ expectChar c pre = some [] := by
  intro cs r h
  cases cs with
  | nil => simp [expectChar] at h
  | cons x xs =>
    simp only [expectChar] at h
    by_cases hx : x = c
    · simp [hx] at h
      exact ⟨[x], by simp [h], by simp [expectChar, hx]⟩
    · simp [hx] at h

theorem guidTail_append (cs r ys : List Char) (h : guidTail cs = some r) :
    guidTail (cs ++ ys) = some (r ++ ys) := by
  simp only [guidTail, Option.bind_eq_some] at h ⊢
  obtain ⟨a1, h1, a2, h2, a3, h3, a4, h4, a5, h5, a6, h6, a7, h7, a8, h8, a9, h9, a10, h10,
    h11⟩ := h
  exact ⟨a1 ++ ys, expectChar_append _ _ _ _ h1, a2 ++ ys, consume_append _ _ _ _ _ h2,
    a3 ++ ys, expectChar_append _ _ _ _ h3, a4 ++ ys, consume_append _ _ _ _ _ h4,
    a5 ++ ys, expectChar_append _ _ _ _ h5, a6 ++ ys, consume_append _ _ _ _ _ h6,
    a7 ++ ys, expectChar_append _ _ _ _ h7, a8 ++ ys, consume_append _ _ _ _ _ h8,
    a9 ++ ys, expectChar_append _ _ _ _ h9, a10 ++ ys, consume_append _ _ _ _ _ h10,
    expectChar_append _ _ _ _ h11⟩

theorem guidTail_split (cs r : List Char) (h : guidTail cs = some r) :
    ∃ pre, cs = pre ++ r ∧ guidTail pre = some [] := by
  simp only [guidTail, Option.bind_eq_some] at h
  obtain ⟨a1, h1, a2, h2, a3, h3, a4, h4, a5, h5, a6, h6, a7, h7, a8, h8, a9, h9, a10, h10,
    h11⟩ := h
  obtain ⟨p1, e1, f1⟩ := expectChar_split _ _ _ h1
  obtain ⟨p2, e2, f2⟩ := consume_split _ _ _ _ h2
  obtain ⟨p3, e3, f3⟩ := expectChar_split _ _ _ h3
  obtain ⟨p4, e4, f4⟩ := consume_split _ _ _ _ h4
  obtain ⟨p5, e5, f5⟩ := expectChar_split _ _ _ h5
  obtain ⟨p6, e6, f6⟩ := consume_split _ _ _ _ h6
  obtain ⟨p7, e7, f7⟩ := expectChar_split _ _ _ h7
  obtain ⟨p8, e8, f8⟩ := consume_split _ _ _ _ h8
  obtain ⟨p9, e9, f9⟩ := expectChar_split _ _ _ h9
  obtain ⟨p10, e10, f10⟩ := consume_split _ _ _ _ h10
  obtain ⟨p11, e11, f11⟩ := expectChar_split _ _ _ h11
  refine ⟨p1 ++ (p2 ++ (p3 ++ (p4 ++ (p5 ++ (p6 ++ (p7 ++ (p8 ++ (p9 ++ (p10 ++ p11))))))))),
    ?_, ?_⟩
  · simp only [e1, e2, e3, e4, e5, e6, e7, e8, e9, e10, e11, List.append_assoc]
  · simp only [guidTail, Option.bind_eq_some]
    have g1 := expectChar_append _ _ _ (p2 ++ (p3 ++ (p4 ++ (p5 ++ (p6 ++ (p7 ++ (p8 ++
      (p9 ++ (p10 ++ p11))))))))) f1
    simp only [List.nil_append] at g1
    refine ⟨_, g1, ?_⟩
    have g2 := consume_append _ _ _ _ (p3 ++ (p4 ++ (p5 ++ (p6 ++ (p7 ++ (p8 ++
      (p9 ++ (p10 ++ p11)))))))) f2
    simp only [List.nil_append] at g2
    refine ⟨_, g2, ?_⟩
    have g3 := expectChar_append _ _ _ (p4 ++ (p5 ++ (p6 ++ (p7 ++ (p8 ++
      (p9 ++ (p10 ++ p11))))))) f3
    simp only [List.nil_append] at g3
    refine ⟨_, g3, ?_⟩
    have g4 := consume_append _ _ _ _ (p5 ++ (p6 ++ (p7 ++ (p8 ++ (p9 ++ (p10 ++ p11)))))) f4
    simp only [List.nil_append] at g4
    refine ⟨_, g4, ?_⟩
    have g5 := expectChar_append _ _ _ (p6 ++ (p7 ++ (p8 ++ (p9 ++ (p10 ++ p11))))) f5
    simp only [List.nil_append] at g5
    refine ⟨_, g5, ?_⟩
    have g6 := consume_append _ _ _ _ (p7 ++ (p8 ++ (p9 ++ (p10 ++ p11)))) f6
    simp only [List.nil_append] at g6
    refine ⟨_, g6, ?_⟩
    have g7 := expectChar_append _ _ _ (p8 ++ (p9 ++ (p10 ++ p11))) f7
    simp only [List.nil_append] at g7
    refine ⟨_, g7, ?_⟩
    have g8 := consume_append _ _ _ _ (p9 ++ (p10 ++ p11)) f8
    simp only [List.nil_append] at g8
    refine ⟨_, g8, ?_⟩
    have g9 := expectChar_append _ _ _ (p10 ++ p11) f9
    simp only [List.nil_append] at g9
    refine ⟨_, g9, ?_⟩
    have g10 := consume_append _ _ _ _ p11 f10
    simp only [List.nil_append] at g10
    exact ⟨_, g10, f11⟩

/-- C5 amended: `validate_guid` accepts exactly the canonical-form strings
and the canonical-form strings followed by one final newline (the
tolerance Python's `$` anchor adds, which the original claim omitted). -/
theorem c5_guid_roundtrip_amended (s : String) :
    validate_guid s = true ↔
      (isCanonicalGuid s = true ∨ ∃ t, s = t ++ "\n" ∧ isCanonicalGuid t = true) := by
  constructor
  · intro h
    unfold validate_guid at h
    cases hg : guidTail s.data with
    | none => rw [hg] at h; simp at h
    | some rest =>
      rw [hg] at h
      simp only [Bool.or_eq_true, List.isEmpty_iff, decide_eq_true_eq] at h
      cases h with
      | inl hrest =>
        left
        unfold isCanonicalGuid
        rw [hg, hrest]
        simp
      | inr hrest =>
        right
        have hrest' : rest = ['\n'] := by
          cases rest with
          | nil => simp at hrest
          | cons a t =>
            cases t with
            | nil =>
              simp_all
            | cons b t2 => simp at hrest
        subst hrest'
        obtain ⟨pre, hpre, hguid⟩ := guidTail_split _ _ hg
        refine ⟨String.mk pre, ?_, ?_⟩
        · cases s with
          | mk data =>
            simp only [String.data] at hpre
            show String.mk data = String.mk pre ++ String.mk ['\n']
            rw [hpre]
            rfl
        · unfold isCanonicalGuid
          simp only [String.data]
          rw [hguid]
          simp
  · intro h
    cases h with
    | inl h =>
      unfold isCanonicalGuid at h
      cases hg : guidTail s.data with
      | none => rw [hg] at h; simp at h
      | some rest =>
        rw [hg] at h
        simp only [List.isEmpty_iff] at h
        unfold validate_guid
        rw [hg, h]
        simp
    | inr h =>
      obtain ⟨t, hs, ht⟩ := h
      unfold isCanonicalGuid at ht
      cases hg : guidTail t.data with
      | none => rw [hg] at ht; simp at ht
      | some rest =>
        rw [hg] at ht
        simp only [List.isEmpty_iff] at ht
        subst ht
        have hdata : s.data = t.data ++ ['\n'] := by
          rw [hs]
          cases t with
          | mk data => rfl
        unfold validate_guid
        rw [hdata, guidTail_append _ _ _ hg]
        simp

/-- C5 amended, instantiated: the iff evaluated at a canonical GUID
string. -/
theorem c5_guid_roundtrip_amended_witness :
    validate_guid "\x7b54849625-5478-4994-A5BA-3E3B0328C30D\x7d" = true ↔
      (isCanonicalGuid "\x7b54849625-5478-4994-A5BA-3E3B0328C30D\x7d" = true ∨
        ∃ t, "\x7b54849625-5478-4994-A5BA-3E3B0328C30D\x7d" = t ++ "\n" ∧
          isCanonicalGuid t = true) :=
  c5_guid_roundtrip_amended "\x7b54849625-5478-4994-A5BA-3E3B0328C30D\x7d"

/-! ## C4

The channel-mismatch error shape, and the fact that no validation stage
after the cross-check can produce it. -/

/-- Is an exception the standard-channel mismatch validation error? -/
def isChanErr : PyErr → Bool
  | .validation (.channelMismatch _) => true
  | _ => false

/-- A computation that never fails with the channel-mismatch error. -/
def NotChan {α : Type} (r : Except PyErr α) : Prop :=
  ∀ e, r = .error e → isChanErr e = false

theorem notChan_ok {α : Type} (a : α) : NotChan (Except.ok a : Except PyErr α) := by
  intro e h
  cases h

theorem notChan_error {α : Type} (e0 : PyErr) (h0 : isChanErr e0 = false) :
    NotChan (Except.error e0 : Except PyErr α) := by
  intro e h
  cases h
  exact h0

theorem notChan_seqE (a b : Except PyErr Unit) (ha : NotChan a) (hb : NotChan b) :
    NotChan (seqE a b) := by
  intro e h
  cases ha2 : a with
  | ok u =>
    rw [ha2] at h
    simp only [seqE] at h
    exact hb e h
  | error e2 =>
    rw [ha2] at h
    simp only [seqE] at h
    cases h
    exact ha _ ha2

theorem pyHasKey_not_chan (v : Val) (k : String) : NotChan (pyHasKey v k) := by
  unfold pyHasKey
  repeat' split
  all_goals first
    | exact notChan_ok _
    | exact notChan_error _ rfl

theorem subscript_not_chan (v : Val) (k : String) : NotChan (subscript v k) := by
  unfold subscript
  repeat' split
  all_goals first
    | exact notChan_ok _
    | exact notChan_error _ rfl

theorem validateDataElem_not_chan (d : Val) : NotChan (validateDataElem d) := by
  unfold validateDataElem
  dsimp only
  repeat' split
  all_goals first
    | exact notChan_ok _
    | exact notChan_error _ rfl

theorem validateDataList_not_chan (l : List Val) : NotChan (validateDataList l) := by
  induction l with
  | nil => exact notChan_ok _
  | cons d rest ih =>
    unfold validateDataList
    exact notChan_seqE _ _ (validateDataElem_not_chan d) ih

theorem validate_event_data_not_chan (v : Val) : NotChan (validate_event_data v) := by
  unfold validate_event_data
  repeat' split
  all_goals first
    | exact notChan_ok _
    | exact notChan_error _ rfl
    | (intro e h; cases h; rename_i heq; exact pyHasKey_not_chan v "Data" _ heq)
    | (intro e h; cases h; rename_i heq; exact subscript_not_chan v "Data" _ heq)
    | exact validateDataList_not_chan _

theorem checkFieldTypes_not_chan (l : List (Val × Val)) : NotChan (checkFieldTypes l) := by
  induction l with
  | nil => exact notChan_ok _
  | cons p rest ih =>
    unfold checkFieldTypes
    repeat' split
    all_goals first
      | exact notChan_error _ rfl
      | exact ih

theorem buildDataFieldsAux_not_chan (l : List Val) :
    ∀ acc, NotChan (buildDataFieldsAux acc l) := by
  induction l with
  | nil => intro acc; exact notChan_ok _
  | cons item rest ih =>
    intro acc
    unfold buildDataFieldsAux
    repeat' split
    all_goals first
      | exact notChan_error _ rfl
      | exact ih _

theorem secEnumLookup_not_chan (idv : Val) : NotChan (secEnumLookup idv) := by
  unfold secEnumLookup
  repeat' split
  all_goals first
    | exact notChan_ok _
    | exact notChan_error _ rfl

theorem validate_security_event_not_chan (idv data : Val) :
    NotChan (validate_security_event idv data) := by
  unfold validate_security_event
  dsimp only
  repeat' split
  all_goals first
    | exact notChan_ok _
    | exact notChan_error _ rfl
    | exact checkFieldTypes_not_chan _
    | (intro e h; cases h; rename_i heq; exact secEnumLookup_not_chan idv _ heq)
    | (intro e h; cases h; rename_i heq; exact pyHasKey_not_chan data "Data" _ heq)
    | (intro e h; cases h; rename_i heq; exact subscript_not_chan data "Data" _ heq)
    | (intro e h; cases h; rename_i heq
       revert heq
       split
       · split
         · intro heq; exact buildDataFieldsAux_not_chan _ [] _ heq
         · intro heq; cases heq; rfl
       · intro heq; cases heq)

theorem validate_security_event_data_not_chan (ed idv : Val) :
    NotChan (validate_security_event_data ed idv) := by
  unfold validate_security_event_data
  repeat' split
  all_goals first
    | exact notChan_ok _
    | exact notChan_error _ rfl
    | (intro e h; exact validate_security_event_not_chan idv _ e h)

theorem renderingKeywordsStep_not_chan (r : Val) : NotChan (renderingKeywordsStep r) := by
  unfold renderingKeywordsStep
  repeat' split
  all_goals first
    | exact notChan_ok _
    | exact notChan_error _ rfl
    | (intro e h; cases h; rename_i heq; exact pyHasKey_not_chan r "Keywords" _ heq)
    | (intro e h; cases h; rename_i heq; exact subscript_not_chan r "Keywords" _ heq)

theorem validate_rendering_info_not_chan (r : Val) : NotChan (validate_rendering_info r) := by
  unfold validate_rendering_info
  repeat' split
  all_goals first
    | exact notChan_ok _
    | exact notChan_error _ rfl
    | (intro e h; cases h; rename_i heq; exact pyHasKey_not_chan r "Culture" _ heq)
    | (intro e h; cases h; rename_i heq; exact subscript_not_chan r "Culture" _ heq)
    | (refine notChan_seqE _ _ ?_ (renderingKeywordsStep_not_chan r)
       exact notChan_ok _)

theorem vwecSecurityStep_not_chan (event idv : Val) : NotChan (vwecSecurityStep event idv) := by
  unfold vwecSecurityStep
  repeat' split
  all_goals first
    | exact notChan_ok _
    | exact notChan_error _ rfl
    | exact validate_security_event_data_not_chan _ _
    | (intro e h; cases h; rename_i heq; exact pyHasKey_not_chan event "EventData" _ heq)
    | (intro e h; cases h; rename_i heq; exact subscript_not_chan event "EventData" _ heq)

theorem vwecRenderingStep_not_chan (event : Val) : NotChan (vwecRenderingStep event) := by
  unfold vwecRenderingStep
  repeat' split
  all_goals first
    | exact notChan_ok _
    | exact notChan_error _ rfl
    | exact validate_rendering_info_not_chan _
    | (intro e h; cases h; rename_i heq; exact pyHasKey_not_chan event "RenderingInfo" _ heq)
    | (intro e h; cases h; rename_i heq; exact subscript_not_chan event "RenderingInfo" _ heq)

theorem vwecEventDataStep_not_chan (event : Val) : NotChan (vwecEventDataStep event) := by
  unfold vwecEventDataStep
  repeat' split
  all_goals first
    | exact notChan_ok _
    | exact notChan_error _ rfl
    | exact validate_event_data_not_chan _
    | (intro e h; cases h; rename_i heq; exact pyHasKey_not_chan event "EventData" _ heq)
    | (intro e h; cases h; rename_i heq; exact subscript_not_chan event "EventData" _ heq)

/-- No stage after the standard-channel cross-check can produce the
channel-mismatch error: every raise site of the security, RenderingInfo
and EventData stages uses a different message. -/
theorem vwecPost_not_chan (config : Val) : NotChan (vwecPost config) := by
  unfold vwecPost
  repeat' split
  all_goals first
    | (intro e h; cases h; rename_i heq; exact subscript_not_chan _ _ _ heq)
    | exact notChan_seqE _ _ (vwecSecurityStep_not_chan _ _)
        (notChan_seqE _ _ (vwecRenderingStep_not_chan _) (vwecEventDataStep_not_chan _))

/-- Inversion of a successful subscript: the value was a dict holding the
key. -/
theorem subscript_ok_inv (v : Val) (k : String) (x : Val) (h : subscript v k = .ok x) :
    ∃ es, v = .dict es ∧ dictLookup es k = some x := by
  cases v with
  | dict es =>
    refine ⟨es, rfl, ?_⟩
    simp only [subscript] at h
    cases hl : dictLookup es k with
    | some y => rw [hl] at h; cases h; rfl
    | none => rw [hl] at h; cases h
  | int i => simp only [subscript] at h; cases h
  | str s => simp only [subscript] at h; cases h
  | list l => simp only [subscript] at h; cases h

/-- A configuration whose `System.Channel` is the standard name
`"Security"` and whose raw descriptor Channel (3) mismatches the table id
(2), but which lacks the required top-level `template` key. -/
def c4BadConfig : Val :=
  .dict [
    ("event_descriptor", .dict [
      ("Id", .int 1000), ("Version", .int 0), ("Channel", .int 3),
      ("Level", .int 0), ("Opcode", .int 0), ("Task", .int 0), ("Keyword", .int 0)]),
    ("Event", .dict [("System", .dict [("Channel", .str "Security")])])]

/-- C4 counterexample: `c4BadConfig` satisfies the claim's premise
(standard channel name, raw descriptor Channel differing from the table
id), so the claim requires full validation to fail with a channel-mismatch
error; the code instead fails earlier, reporting the missing `template`
key — so the claimed equivalence is false as stated over every
configuration. -/
theorem c4_counterexample :
    ((Val.lookup c4BadConfig "Event").bind (fun ev => Val.lookup ev "System")).bind
        (fun sys => Val.lookup sys "Channel") = some (.str "Security") ∧
    stdChannelId "Security" = some 2 ∧
    (Val.lookup c4BadConfig "event_descriptor").bind (fun d => Val.lookup d "Channel") =
      some (.int 3) ∧
    pyEq (.int 3) (.int 2) = false ∧
    validate_windows_event_config c4BadConfig =
      .error (.validation (.missingTopFields ["template"])) ∧
    isChanErr (.validation (.missingTopFields ["template"])) = false :=
  ⟨rfl, rfl, rfl, rfl, rfl, rfl⟩

/-- C4 amended: restricted to configurations that pass every validation
stage before the standard-channel cross-check, validation fails with the
channel-mismatch error if and only if the raw descriptor Channel value is
not `==`-equal to the standard channel id (note the comparison is on the
raw configuration value, without numeric coercion, as in the source). -/
theorem c4_channel_mismatch_amended (config : Val) {ev sys desc dch : Val}
    (name : String) (cid : Int)
    (hpre : vwecPre config = .ok ())
    (hEvent : subscript config "Event" = .ok ev)
    (hSys : subscript ev "System" = .ok sys)
    (hCh : subscript sys "Channel" = .ok (.str name))
    (hstd : stdChannelId name = some cid)
    (hdesc : subscript config "event_descriptor" = .ok desc)
    (hdch : subscript desc "Channel" = .ok dch) :
    (validate_windows_event_config config = .error (.validation (.channelMismatch name)) ↔
      pyEq dch (.int cid) = false) := by
  obtain ⟨ses, hsys_eq, hlk⟩ := subscript_ok_inv _ _ _ hCh
  rw [hsys_eq] at hCh hSys
  have hHas : pyHasKey (Val.dict ses) "Channel" = .ok true := by
    simp [pyHasKey, hlk]
  have hchan : vwecChannel config =
      (if ¬ pyEq dch (.int cid) then .error (.validation (.channelMismatch name))
       else .ok ()) := by
    simp only [vwecChannel, hEvent, hSys, hHas, hCh, hstd, hdesc, hdch, if_pos]
  unfold validate_windows_event_config
  rw [hpre, hchan]
  by_cases hp : pyEq dch (.int cid) = false
  · rw [if_pos (by simp [hp])]
    simp only [seqE]
    simp [hp]
  · have hp2 : pyEq dch (.int cid) = true := by
      cases hq : pyEq dch (.int cid)
      · exact absurd hq hp
      · rfl
    rw [if_neg (by simp [hp2])]
    simp only [seqE]
    constructor
    · intro h
      have := vwecPost_not_chan config _ h
      simp [isChanErr] at this
    · intro h
      rw [h] at hp2
      cases hp2

/-- The scenario-B configuration: the test suite's valid configuration
with the descriptor Channel changed to 3 while `System.Channel` stays
`"Security"` (id 2). -/
def c4MismatchConfig : Val :=
  .dict [
    ("event_descriptor", .dict [
      ("Id", .int 4624), ("Version", .int 0), ("Channel", .int 3),
      ("Level", .int 0), ("Opcode", .int 0), ("Task", .int 12544),
      ("Keyword", .str "0x8020000000000000")]),
    ("template", .dict [
      ("message", .str "An account was successfully logged on."),
      ("values", .list [.str "func_sid"])]),
    ("Event", .dict [
      ("System", .dict [
        ("Provider", .dict [
          ("Name", .str "Microsoft-Windows-Security-Auditing"),
          ("Guid", .str "\x7b54849625-5478-4994-A5BA-3E3B0328C30D\x7d")]),
        ("EventID", .dict [("_text", .str "4624"), ("Qualifiers", .str "0")]),
        ("Computer", .str "TestComputer"),
        ("Channel", .str "Security")]),
      ("EventData", .dict [("Data", .list logonData)])])]

/-- C4 amended, instantiated (scenario B): `System.Channel = "Security"`
with descriptor Channel 3 fails with the channel-mismatch error. -/
theorem c4_channel_mismatch_amended_witness :
    validate_windows_event_config c4MismatchConfig =
      .error (.validation (.channelMismatch "Security")) :=
  (c4_channel_mismatch_amended c4MismatchConfig "Security" 2
    rfl rfl rfl rfl rfl rfl rfl).mpr rfl

/-! ## C2, amended -/

/-- A successful subscript implies the membership test succeeds with
`true`. -/
theorem subscript_ok_hasKey (v : Val) (k : String) (x : Val) (h : subscript v k = .ok x) :
    pyHasKey v k = .ok true := by
  obtain ⟨es, he, hl⟩ := subscript_ok_inv _ _ _ h
  subst he
  simp [pyHasKey, hl]

/-- Unfold a successful descriptor-field conversion into its subscript and
`int()` parts. -/
theorem descConv_ok_subscript (d : Val) (f : String) (i : Int)
    (h : descConv d f = .ok i) : ∃ x, subscript d f = .ok x ∧ pyInt x = .ok i := by
  unfold descConv at h
  cases hs : subscript d f with
  | error e => rw [hs] at h; cases h
  | ok x => rw [hs] at h; exact ⟨x, rfl, h⟩

/-- Same for the Keyword conversion. -/
theorem descConvKeyword_ok_subscript (d : Val) (i : Int)
    (h : descConvKeyword d = .ok i) :
    ∃ x, subscript d "Keyword" = .ok x ∧ keywordParse x = .ok i := by
  unfold descConvKeyword at h
  cases hs : subscript d "Keyword" with
  | error e => rw [hs] at h; cases h
  | ok x => rw [hs] at h; exact ⟨x, rfl, h⟩

/-- C2 amended: for a descriptor whose seven fields are present and
convert to the integers `i, v, c, l, o, t, k`, validation fails naming the
offending field, range and value whenever the converted Level is outside
0..15 (checked first), the converted Opcode is outside 0..240 (checked
next), or the converted Task is negative; and when `0 ≤ l ≤ 15`,
`0 ≤ o ≤ 240` and `0 ≤ t`, it returns the complete `EventDescriptor`
carrying exactly the converted values.  (The original claim's success
condition lacked the lower bounds on Level and Opcode.) -/
theorem c2_descriptor_validation_amended (descriptor : Val) (i v c l o t k : Int)
    (hId : descConv descriptor "Id" = .ok i)
    (hVer : descConv descriptor "Version" = .ok v)
    (hCh : descConv descriptor "Channel" = .ok c)
    (hLvl : descConv descriptor "Level" = .ok l)
    (hOp : descConv descriptor "Opcode" = .ok o)
    (hTask : descConv descriptor "Task" = .ok t)
    (hKw : descConvKeyword descriptor = .ok k) :
    ((l < 0 ∨ 15 < l) →
      validate_event_descriptor descriptor = .error (.validation (.descLevelRange l))) ∧
    (0 ≤ l → l ≤ 15 → (o < 0 ∨ 240 < o) →
      validate_event_descriptor descriptor = .error (.validation (.descOpcodeRange o))) ∧
    (0 ≤ l → l ≤ 15 → 0 ≤ o → o ≤ 240 → t < 0 →
      validate_event_descriptor descriptor = .error (.validation (.descTaskNegative t))) ∧
    (0 ≤ l → l ≤ 15 → 0 ≤ o → o ≤ 240 → 0 ≤ t →
      validate_event_descriptor descriptor = .ok ⟨i, v, c, l, o, t, k⟩) := by
  have hhId := subscript_ok_hasKey _ _ _ (descConv_ok_subscript _ _ _ hId).choose_spec.1
  have hhVer := subscript_ok_hasKey _ _ _ (descConv_ok_subscript _ _ _ hVer).choose_spec.1
  have hhCh := subscript_ok_hasKey _ _ _ (descConv_ok_subscript _ _ _ hCh).choose_spec.1
  have hhLvl := subscript_ok_hasKey _ _ _ (descConv_ok_subscript _ _ _ hLvl).choose_spec.1
  have hhOp := subscript_ok_hasKey _ _ _ (descConv_ok_subscript _ _ _ hOp).choose_spec.1
  have hhTask := subscript_ok_hasKey _ _ _ (descConv_ok_subscript _ _ _ hTask).choose_spec.1
  have hhKw := subscript_ok_hasKey _ _ _ (descConvKeyword_ok_subscript _ _ hKw).choose_spec.1
  have hbody : vedBody descriptor =
      (if ¬ (0 ≤ l ∧ l ≤ 15) then .error (.validation (.descLevelRange l))
       else if ¬ (0 ≤ o ∧ o ≤ 240) then .error (.validation (.descOpcodeRange o))
       else if t < 0 then .error (.validation (.descTaskNegative t))
       else .ok ⟨i, v, c, l, o, t, k⟩) := by
    simp only [vedBody, hhId, hhVer, hhCh, hhLvl, hhOp, hhTask, hhKw,
      hId, hVer, hCh, hLvl, hOp, hTask, hKw]
    simp
  refine ⟨?_, ?_, ?_, ?_⟩
  · intro hl
    unfold validate_event_descriptor
    rw [hbody, if_pos (by omega)]
  · intro hl1 hl2 ho
    unfold validate_event_descriptor
    rw [hbody, if_neg (by omega), if_pos (by omega)]
  · intro hl1 hl2 ho1 ho2 ht
    unfold validate_event_descriptor
    rw [hbody, if_neg (by omega), if_neg (by omega), if_pos (by omega)]
  · intro hl1 hl2 ho1 ho2 ht
    unfold validate_event_descriptor
    rw [hbody, if_neg (by omega), if_neg (by omega), if_neg (by omega)]

/-- The test suite's valid descriptor. -/
def c2OkDescriptor : Val :=
  .dict [("Id", .int 4624), ("Version", .int 0), ("Channel", .int 2),
         ("Level", .int 0), ("Opcode", .int 0), ("Task", .int 12544),
         ("Keyword", .str "0x8020000000000000")]

/-- C2 amended, instantiated: the in-range descriptor of the test suite
validates to the complete converted `EventDescriptor`. -/
theorem c2_descriptor_validation_amended_witness :
    validate_event_descriptor c2OkDescriptor =
      .ok ⟨4624, 0, 2, 0, 0, 12544, 9232379236109516800⟩ :=
  (c2_descriptor_validation_amended c2OkDescriptor 4624 0 2 0 0 12544 9232379236109516800
    rfl rfl rfl rfl rfl rfl rfl).2.2.2
    (by decide) (by decide) (by decide) (by decide) (by decide)

/-! ## C6, amended -/

theorem hex_not_space (ch : Char) (h : isHexChar ch = true) : isPySpace ch = false := by
  cases hc : isPySpace ch
  · rfl
  · exfalso
    unfold isPySpace at hc
    simp only [Bool.or_eq_true, decide_eq_true_eq] at hc
    rcases hc with ((((rfl | rfl) | rfl) | rfl) | rfl) | rfl <;> exact absurd h (by decide)

theorem dropWhile_false (p : Char → Bool) :
    ∀ cs : List Char, (∀ c ∈ cs, p c = false) → cs.dropWhile p = cs := by
  intro cs h
  cases cs with
  | nil => rfl
  | cons c rest =>
    rw [List.dropWhile_cons]
    rw [h c (by simp)]
    simp

theorem trimChars_id (cs : List Char) (h : ∀ c ∈ cs, isPySpace c = false) :
    trimChars cs = cs := by
  unfold trimChars
  rw [dropWhile_false _ cs h]
  rw [dropWhile_false _ cs.reverse (fun c hc => h c (List.mem_reverse.mp hc))]
  exact List.reverse_reverse cs

theorem pySign_hex (d : Char) (rest : List Char) (hd : isHexChar d = true) :
    pySign (d :: rest) = (1, d :: rest) := by
  unfold pySign
  split
  · rename_i r heq
    injection heq with h1 h2
    subst h1
    exact absurd hd (by decide)
  · rename_i r heq
    injection heq with h1 h2
    subst h1
    exact absurd hd (by decide)
  · rfl

theorem pyHexBody_hex (ds : List Char) (hhex : ∀ ch ∈ ds, isHexChar ch = true) :
    pyHexBody ds = ds := by
  unfold pyHexBody
  split
  · rename_i x r
    have hx : isHexChar x = true := hhex x (by simp)
    rw [if_neg]
    · rintro (rfl | rfl) <;> exact absurd hx (by decide)
  · rfl

/-- C6 amended: `validate_event_descriptor`'s Keyword conversion parses a
numeric Keyword as its integer value unchanged, and parses every textual
Keyword in base 16 with the `0x` prefix optional: both `"0x" ++ digits`
and the bare `digits` (including bare decimal-digit strings, which the
original claim said would be read as decimal) parse to the hexadecimal
reading of `digits`. -/
theorem c6_keyword_parse_amended (ds : List Char) (hne : ds ≠ [])
    (hhex : ∀ ch ∈ ds, isHexChar ch = true) :
    keywordParse (.str (String.mk ds)) = .ok ((hexNatVal ds : Nat) : Int) ∧
    keywordParse (.str (String.mk ('0' :: 'x' :: ds))) = .ok ((hexNatVal ds : Nat) : Int) ∧
    (∀ j : Int, keywordParse (.int j) = .ok j) := by
  have hns : ∀ c ∈ ds, isPySpace c = false := fun c hc => hex_not_space c (hhex c hc)
  refine ⟨?_, ?_, fun j => rfl⟩
  · show pyIntBase16Str (String.mk ds) = .ok ((hexNatVal ds : Nat) : Int)
    unfold pyIntBase16Str
    have htrim : trimChars (String.mk ds).data = ds := trimChars_id ds hns
    rw [htrim]
    cases ds with
    | nil => exact absurd rfl hne
    | cons d rest =>
      rw [pySign_hex d rest (hhex d (by simp))]
      rw [pyHexBody_hex _ hhex]
      rw [if_pos ⟨by simp, List.all_eq_true.mpr hhex⟩]
      simp
  · show pyIntBase16Str (String.mk ('0' :: 'x' :: ds)) = .ok ((hexNatVal ds : Nat) : Int)
    unfold pyIntBase16Str
    have htrim : trimChars (String.mk ('0' :: 'x' :: ds)).data = '0' :: 'x' :: ds := by
      apply trimChars_id
      intro c hc
      simp only [List.mem_cons] at hc
      rcases hc with rfl | rfl | hc
      · rfl
      · rfl
      · exact hns c hc
    rw [htrim]
    have hsign : pySign ('0' :: 'x' :: ds) = (1, '0' :: 'x' :: ds) := rfl
    rw [hsign]
    have hbody : pyHexBody ('0' :: 'x' :: ds) = ds := by simp [pyHexBody]
    rw [hbody]
    rw [if_pos ⟨hne, List.all_eq_true.mpr hhex⟩]
    simp

/-- C6 amended, instantiated at the digit string `"10"`: both `"10"` and
`"0x10"` parse to 16, and a numeric Keyword passes through. -/
theorem c6_keyword_parse_amended_witness :
    keywordParse (.str "10") = .ok 16 ∧
    keywordParse (.str "0x10") = .ok 16 ∧
    keywordParse (.int 5) = .ok 5 := by
  have h := c6_keyword_parse_amended ['1', '0'] (by decide) (by decide)
  exact ⟨h.1.trans rfl, h.2.1.trans rfl, h.2.2 5⟩

/-! ## C3 -/

/-- If some entry of the name-indexed field table has a declared expected
type and a differing actual type, the field-type loop fails with a
type-mismatch error naming such an entry, its declared type and its actual
type. -/
theorem checkFieldTypes_finds :
    ∀ (l : List (Val × Val)) (n : Val) (fd : Val) (exp : String),
      (n, fd) ∈ l → fieldTypeFor n = some exp →
      typeDiffers (fd.lookup "Type") exp = true →
      ∃ n2 e2 fd2, (n2, fd2) ∈ l ∧ fieldTypeFor n2 = some e2 ∧
        typeDiffers (fd2.lookup "Type") e2 = true ∧
        checkFieldTypes l =
          .error (.valueError (.sec (.typeMismatch n2 e2 (fd2.lookup "Type")))) := by
  intro l
  induction l with
  | nil =>
    intro n fd exp hmem
    cases hmem
  | cons p rest ih =>
    intro n fd exp hmem hty hbad
    obtain ⟨n0, fd0⟩ := p
    cases h0 : fieldTypeFor n0 with
    | some e0 =>
      cases hb : typeDiffers (fd0.lookup "Type") e0 with
      | true =>
        refine ⟨n0, e0, fd0, by simp, h0, hb, ?_⟩
        simp [checkFieldTypes, h0, hb]
      | false =>
        have hrec : checkFieldTypes ((n0, fd0) :: rest) = checkFieldTypes rest := by
          simp [checkFieldTypes, h0, hb]
        rcases List.mem_cons.mp hmem with heq | htail
        · injection heq with he1 he2
          subst he1
          subst he2
          rw [h0] at hty
          injection hty with he3
          subst he3
          rw [hb] at hbad
          cases hbad
        · obtain ⟨n2, e2, fd2, hm2, ht2, hb2, hres⟩ := ih n fd exp htail hty hbad
          exact ⟨n2, e2, fd2, List.mem_cons_of_mem _ hm2, ht2, hb2, hrec.trans hres⟩
    | none =>
      have hrec : checkFieldTypes ((n0, fd0) :: rest) = checkFieldTypes rest := by
        simp [checkFieldTypes, h0]
      rcases List.mem_cons.mp hmem with heq | htail
      · injection heq with he1 he2
        subst he1
        rw [h0] at hty
        cases hty
      · obtain ⟨n2, e2, fd2, hm2, ht2, hb2, hres⟩ := ih n fd exp htail hty hbad
        exact ⟨n2, e2, fd2, List.mem_cons_of_mem _ hm2, ht2, hb2, hrec.trans hres⟩

/-- Evaluation of `validate_security_event` on a 4624 record whose Data
list builds the field table `fields`: the missing-field check, then the
type loop. -/
theorem vse_main (es : List (String × Val)) (items : List Val)
    (fields : List (Val × Val))
    (hData : dictLookup es "Data" = some (.list items))
    (hBuild : buildDataFieldsAux [] items = .ok fields) :
    validate_security_event (.int 4624) (.dict es) =
      (if ¬ (required4624.filter
              (fun f => ¬ fields.any (fun p => pyEq p.1 (.str f)))).isEmpty then
        .error (.valueError (.sec (.missingFields 4624
          (required4624.filter (fun f => ¬ fields.any (fun p => pyEq p.1 (.str f)))))))
      else checkFieldTypes fields) := by
  have h1 : secEnumLookup (.int 4624) = .ok 4624 := rfl
  have h2 : pyHasKey (Val.dict es) "Data" = .ok true := by
    simp [pyHasKey, hData]
  have h3 : subscript (Val.dict es) "Data" = .ok (.list items) := by
    simp [subscript, hData]
  cases items with
  | nil =>
    have hf : fields = [] := by
      simp only [buildDataFieldsAux] at hBuild
      injection hBuild with h
      exact h.symm
    subst hf
    simp only [validate_security_event, h1, h2, h3]
    simp [truthy]
  | cons it rest =>
    simp only [validate_security_event, h1, h2, h3]
    have htr : truthy (some (Val.list (it :: rest))) = true := by
      simp [truthy]
    rw [htr]
    simp [hBuild]

/-- C3: for a 4624 security record whose `Data` entries build the
name-indexed table `fields`, (1) when required fields are absent,
validation fails with the error listing exactly the required field names
absent from the table — every missing required field and no other, in
catalog order — and (2) when all required fields are present, any present
entry with a declared expected type and a differing `Type` makes
validation fail with a type-mismatch error naming such a field, its
declared expected type and its actual type. -/
theorem c3_security_event_validation (es : List (String × Val)) (items : List Val)
    (fields : List (Val × Val))
    (hData : dictLookup es "Data" = some (.list items))
    (hBuild : buildDataFieldsAux [] items = .ok fields) :
    (required4624.filter (fun f => ¬ fields.any (fun p => pyEq p.1 (.str f))) ≠ [] →
      validate_security_event (.int 4624) (.dict es) =
        .error (.valueError (.sec (.missingFields 4624
          (required4624.filter (fun f => ¬ fields.any (fun p => pyEq p.1 (.str f))))))) ∧
      (∀ f, f ∈ required4624.filter (fun f => ¬ fields.any (fun p => pyEq p.1 (.str f))) ↔
        (f ∈ required4624 ∧ ¬ ∃ p ∈ fields, pyEq p.1 (.str f) = true))) ∧
    (required4624.filter (fun f => ¬ fields.any (fun p => pyEq p.1 (.str f))) = [] →
      ∀ n fd exp, (n, fd) ∈ fields → fieldTypeFor n = some exp →
        typeDiffers (fd.lookup "Type") exp = true →
        ∃ n2 e2 fd2, (n2, fd2) ∈ fields ∧ fieldTypeFor n2 = some e2 ∧
          typeDiffers (fd2.lookup "Type") e2 = true ∧
          validate_security_event (.int 4624) (.dict es) =
            .error (.valueError (.sec (.typeMismatch n2 e2 (fd2.lookup "Type"))))) := by
  have hm := vse_main es items fields hData hBuild
  constructor
  · intro hne
    constructor
    · rw [hm, if_pos (by simpa using hne)]
    · intro f
      simp [List.mem_filter, List.any_eq_true]
  · intro hemp n fd exp hmem hty hbad
    obtain ⟨n2, e2, fd2, hm2, ht2, hb2, hres⟩ :=
      checkFieldTypes_finds fields n fd exp hmem hty hbad
    refine ⟨n2, e2, fd2, hm2, ht2, hb2, ?_⟩
    rw [hm, if_neg (by rw [hemp]; simp)]
    exact hres

/-- C3, instantiated: a 4624 record carrying only the `LogonType` entry is
rejected with exactly the other seven required field names, in catalog
order. -/
theorem c3_security_event_validation_witness :
    validate_security_event (.int 4624)
      (.dict [("Data", .list [dataEntry "LogonType" "win:UInt32" "2"])]) =
      .error (.valueError (.sec (.missingFields 4624
        ["SubjectUserSid", "SubjectUserName", "SubjectDomainName", "SubjectLogonId",
         "RestrictedAdminMode", "VirtualAccount", "ElevatedToken"]))) :=
  ((c3_security_event_validation [("Data", .list [dataEntry "LogonType" "win:UInt32" "2"])]
    [dataEntry "LogonType" "win:UInt32" "2"]
    [(.str "LogonType", dataEntry "LogonType" "win:UInt32" "2")]
    rfl rfl).1 (by decide)).1

/-! ## C8 -/

/-- C8: the serializer's attribute asymmetry.  For a generator
specification string `s` (one token, dispatching to the generator `c`) as
an attribute value under the key `k`: the EventData `Data` loop emits the
attribute with `s` verbatim (never resolved), while the System loop emits
the attribute with the generator's output in its place; the full emitted
`Data` and System element lines carry those attribute texts. -/
theorem c8_serializer_attr_asymmetry (env : Env) (k s : String) (c : Capability)
    (hk : k ≠ "_text")
    (htok : pySplitWs s = [s])
    (hfn : get_function s = .ok (.generator c)) :
    get_random_value env (.str s) = .ok (genOutput env c) ∧
    dataPartsAux env [] "" [(k, .str s)] = .ok ([k ++ "=\"" ++ s ++ "\""], "") ∧
    systemPartsAux env [] "" [(k, .str s)] =
      .ok ([k ++ "=\"" ++ genOutput env c ++ "\""], "") ∧
    dataEntryLine env (.dict [(k, .str s)]) =
      .ok ("    <Data " ++ (k ++ "=\"" ++ s ++ "\"") ++ ">" ++ "" ++ "</Data>") ∧
    systemFieldLine env "T" (.dict [(k, .str s)]) =
      .ok ("    <" ++ "T" ++ " " ++ (k ++ "=\"" ++ genOutput env c ++ "\"") ++ ">" ++ "" ++
        "</" ++ "T" ++ ">") := by
  have h3 : get_random_value env (.str s) = .ok (genOutput env c) := by
    simp only [get_random_value, exec_function_str]
    rw [htok]
    simp only [hfn]
    rfl
  have h1 : dataPartsAux env [] "" [(k, .str s)] = .ok ([k ++ "=\"" ++ s ++ "\""], "") := by
    simp only [dataPartsAux]
    rw [if_neg hk]
    rfl
  have h2 : systemPartsAux env [] "" [(k, .str s)] =
      .ok ([k ++ "=\"" ++ genOutput env c ++ "\""], "") := by
    simp only [systemPartsAux]
    rw [if_neg hk, h3]
    rfl
  refine ⟨h3, h1, h2, ?_, ?_⟩
  · simp only [dataEntryLine]
    rw [h1]
    dsimp only
    rw [if_pos (by simp)]
    simp [joinWith]
  · simp only [systemFieldLine]
    rw [h2]
    dsimp only
    rw [if_pos (by simp)]
    simp [joinWith]

/-- C8, instantiated: the spec string `"func_guid"` under the key
`SystemTime` stays verbatim in a `Data` attribute but becomes the fresh
GUID in a System attribute, and the two attribute texts differ. -/
theorem c8_serializer_attr_asymmetry_witness :
    get_random_value env0 (.str "func_guid") =
      .ok "\x7b12345678-1234-5678-1234-567812345678\x7d" ∧
    dataPartsAux env0 [] "" [("SystemTime", .str "func_guid")] =
      .ok (["SystemTime=\"func_guid\""], "") ∧
    systemPartsAux env0 [] "" [("SystemTime", .str "func_guid")] =
      .ok (["SystemTime=\"\x7b12345678-1234-5678-1234-567812345678\x7d\""], "") ∧
    "\x7b12345678-1234-5678-1234-567812345678\x7d" ≠ "func_guid" := by
  have h := c8_serializer_attr_asymmetry env0 "SystemTime" "func_guid" .guid
    (by decide) rfl rfl
  exact ⟨h.1.trans rfl, h.2.1.trans rfl, h.2.2.1.trans rfl, by decide⟩

/-! ## C9

Determinism of the serializer on fully-resolved configurations, and the
source-order emission of the System fields and Data entries. -/

/-- Does the string carry the generator-invocation marker (first
whitespace token starting with `func_`)? -/
def isGenSpecStr (s : String) : Bool :=
  match pySplitWs s with
  | t :: _ => startsWithFunc t
  | [] => false

mutual

/-- Every string leaf of the value lacks the generator-invocation marker
(the claim's "already fully resolved" condition). -/
def resolvedVal : Val → Bool
  | .int _ => true
  | .str s => !(isGenSpecStr s)
  | .dict es => resolvedEntries es
  | .list vs => resolvedItems vs

def resolvedEntries : List (String × Val) → Bool
  | [] => true
  | (_, v) :: rest => resolvedVal v && resolvedEntries rest

def resolvedItems : List Val → Bool
  | [] => true
  | v :: rest => resolvedVal v && resolvedItems rest

end

/-- Resolution of a marker-free value does not read the environment. -/
theorem grv_env_indep (env1 env2 : Env) (v : Val) (h : resolvedVal v = true) :
    get_random_value env1 v = get_random_value env2 v := by
  cases v with
  | str s =>
    have hs : isGenSpecStr s = false := by
      simp only [resolvedVal, Bool.not_eq_true'] at h
      exact h
    have hex : exec_function_str env1 s = exec_function_str env2 s := by
      unfold exec_function_str
      unfold isGenSpecStr at hs
      cases ht : pySplitWs s with
      | nil => rfl
      | cons t args =>
        rw [ht] at hs
        dsimp only at hs
        have hgf : get_function t = .ok (.literal t) := by
          unfold get_function
          rw [if_pos (by simp [hs])]
        dsimp only
        rw [hgf]
        cases args <;> rfl
    simp only [get_random_value]
    rw [hex]
  | int i => rfl
  | dict es => rfl
  | list vs => rfl

theorem resolvedEntries_mem (es : List (String × Val)) (h : resolvedEntries es = true) :
    ∀ p ∈ es, resolvedVal p.2 = true := by
  induction es with
  | nil => intro p hp; cases hp
  | cons q rest ih =>
    intro p hp
    obtain ⟨a, b⟩ := q
    rw [resolvedEntries] at h
    simp only [Bool.and_eq_true] at h
    obtain ⟨h1, h2⟩ := h
    rcases List.mem_cons.mp hp with rfl | htail
    · exact h1
    · exact ih h2 p htail

theorem resolvedItems_mem (vs : List Val) (h : resolvedItems vs = true) :
    ∀ v ∈ vs, resolvedVal v = true := by
  induction vs with
  | nil => intro v hv; cases hv
  | cons w rest ih =>
    intro v hv
    rw [resolvedItems] at h
    simp only [Bool.and_eq_true] at h
    obtain ⟨h1, h2⟩ := h
    rcases List.mem_cons.mp hv with rfl | htail
    · exact h1
    · exact ih h2 v htail

theorem resolved_dictLookup (es : List (String × Val)) (k : String) (v : Val)
    (h : resolvedEntries es = true) (hl : dictLookup es k = some v) :
    resolvedVal v = true := by
  induction es with
  | nil => cases hl
  | cons q rest ih =>
    obtain ⟨a, b⟩ := q
    rw [resolvedEntries] at h
    simp only [Bool.and_eq_true] at h
    obtain ⟨h1, h2⟩ := h
    unfold dictLookup at hl
    by_cases hk : a = k
    · rw [if_pos hk] at hl
      injection hl with hl2
      subst hl2
      exact h1
    · rw [if_neg hk] at hl
      exact ih h2 hl

theorem resolved_subscript (ev : Val) (k : String) (x : Val)
    (h : resolvedVal ev = true) (hs : subscript ev k = .ok x) :
    resolvedVal x = true := by
  obtain ⟨es, rfl, hl⟩ := subscript_ok_inv _ _ _ hs
  rw [resolvedVal] at h
  exact resolved_dictLookup es k x h hl



theorem systemPartsAux_env (env1 env2 : Env) :
    ∀ (es : List (String × Val)) (acc : List String) (text : String),
      resolvedEntries es = true →
      systemPartsAux env1 acc text es = systemPartsAux env2 acc text es := by
  intro es
  induction es with
  | nil => intro acc text h; rfl
  | cons q rest ih =>
    intro acc text h
    obtain ⟨k, v⟩ := q
    rw [resolvedEntries] at h
    simp only [Bool.and_eq_true] at h
    obtain ⟨h1, h2⟩ := h
    unfold systemPartsAux
    rw [grv_env_indep env1 env2 v h1]
    by_cases hk : k = "_text"
    · rw [if_pos hk, if_pos hk]
      cases get_random_value env2 v with
      | ok t => exact ih acc t h2
      | error e => rfl
    · rw [if_neg hk, if_neg hk]
      cases get_random_value env2 v with
      | ok r => exact ih _ text h2
      | error e => rfl

theorem dataPartsAux_env (env1 env2 : Env) :
    ∀ (es : List (String × Val)) (acc : List String) (text : String),
      resolvedEntries es = true →
      dataPartsAux env1 acc text es = dataPartsAux env2 acc text es := by
  intro es
  induction es with
  | nil => intro acc text h; rfl
  | cons q rest ih =>
    intro acc text h
    obtain ⟨k, v⟩ := q
    rw [resolvedEntries] at h
    simp only [Bool.and_eq_true] at h
    obtain ⟨h1, h2⟩ := h
    unfold dataPartsAux
    by_cases hk : k = "_text"
    · rw [if_pos hk, if_pos hk]
      rw [grv_env_indep env1 env2 v h1]
      cases get_random_value env2 v with
      | ok t => exact ih acc t h2
      | error e => rfl
    · rw [if_neg hk, if_neg hk]
      exact ih _ text h2

theorem systemFieldLine_env (env1 env2 : Env) (k : String) (v : Val)
    (h : resolvedVal v = true) :
    systemFieldLine env1 k v = systemFieldLine env2 k v := by
  cases v with
  | dict es =>
    rw [resolvedVal] at h
    simp only [systemFieldLine]
    rw [systemPartsAux_env env1 env2 es [] "" h]
  | int i => rfl
  | str s =>
    simp only [systemFieldLine]
    rw [grv_env_indep env1 env2 (.str s) h]
  | list vs => rfl

theorem systemLines_env (env1 env2 : Env) :
    ∀ (es : List (String × Val)), resolvedEntries es = true →
      systemLines env1 es = systemLines env2 es := by
  intro es
  induction es with
  | nil => intro h; rfl
  | cons q rest ih =>
    intro h
    obtain ⟨k, v⟩ := q
    rw [resolvedEntries] at h
    simp only [Bool.and_eq_true] at h
    obtain ⟨h1, h2⟩ := h
    unfold systemLines
    rw [systemFieldLine_env env1 env2 k v h1]
    cases systemFieldLine env2 k v with
    | ok line =>
      rw [ih h2]
    | error e => rfl

theorem dataEntryLine_env (env1 env2 : Env) (d : Val) (h : resolvedVal d = true) :
    dataEntryLine env1 d = dataEntryLine env2 d := by
  cases d with
  | dict es =>
    rw [resolvedVal] at h
    simp only [dataEntryLine]
    rw [dataPartsAux_env env1 env2 es [] "" h]
  | int i => rfl
  | str s => rfl
  | list vs => rfl

theorem dataLines_env (env1 env2 : Env) :
    ∀ (items : List Val), resolvedItems items = true →
      dataLines env1 items = dataLines env2 items := by
  intro items
  induction items with
  | nil => intro h; rfl
  | cons d rest ih =>
    intro h
    rw [resolvedItems] at h
    simp only [Bool.and_eq_true] at h
    obtain ⟨h1, h2⟩ := h
    unfold dataLines
    rw [dataEntryLine_env env1 env2 d h1]
    cases dataEntryLine env2 d with
    | ok line => rw [ih h2]
    | error e => rfl

theorem getEventDataSection_env (env1 env2 : Env) (event : Val)
    (h : resolvedVal event = true) :
    getEventDataSection env1 event = getEventDataSection env2 event := by
  unfold getEventDataSection
  by_cases hed : (event.lookup "EventData").isSome
  · rw [if_pos hed, if_pos hed]
    cases hs : subscript event "EventData" with
    | error e => rfl
    | ok ed =>
      have hed2 : resolvedVal ed = true := resolved_subscript _ _ _ h hs
      dsimp only
      cases hs2 : subscript ed "Data" with
      | error e => rfl
      | ok dataVal =>
        have hdv : resolvedVal dataVal = true := resolved_subscript _ _ _ hed2 hs2
        dsimp only
        cases dataVal with
        | list items =>
          rw [resolvedVal] at hdv
          simp only [pyListItems]
          rw [dataLines_env env1 env2 items hdv]
        | int i => rfl
        | str s => rfl
        | dict es2 => rfl
  · rw [if_neg hed, if_neg hed]

/-- The serializer's result on a fully-resolved configuration is the same
under any two environments. -/
theorem get_windows_event_log_env (env1 env2 : Env) (config : Val)
    (h : resolvedVal config = true) :
    get_windows_event_log env1 config = get_windows_event_log env2 config := by
  unfold get_windows_event_log
  cases validate_windows_event_config config with
  | error e => rfl
  | ok u =>
    cases hev : subscript config "Event" with
    | error e => rfl
    | ok event =>
      have hrev : resolvedVal event = true := resolved_subscript _ _ _ h hev
      dsimp only
      cases hsys : subscript event "System" with
      | error e => rfl
      | ok system =>
        have hrsys : resolvedVal system = true := resolved_subscript _ _ _ hrev hsys
        dsimp only
        cases system with
        | dict ses =>
          rw [resolvedVal] at hrsys
          simp only [pyItems]
          rw [systemLines_env env1 env2 ses hrsys]
          cases systemLines env2 ses with
          | error e => rfl
          | ok sysLs =>
            dsimp only
            rw [getEventDataSection_env env1 env2 event hrev]
        | int i => rfl
        | str s => rfl
        | list vs => rfl



def tagChar (c : Char) : Bool := c ≠ ' ' && c ≠ '>'

/-- The element tag of an emitted line: what stands between the `    <`
prefix and the first space or `>`. -/
def tagNameOf (line : String) : String :=
  String.mk ((line.data.drop 5).takeWhile tagChar)

/-- A field key whose characters survive tag extraction (no space or
`>`). -/
def goodKey (k : String) : Bool := k.data.all tagChar

theorem takeWhile_front (p : Char → Bool) :
    ∀ (xs : List Char) (y : Char) (ys : List Char),
      (∀ c ∈ xs, p c = true) → p y = false →
      (xs ++ y :: ys).takeWhile p = xs := by
  intro xs
  induction xs with
  | nil =>
    intro y ys hxs hy
    simp [List.takeWhile_cons, hy]
  | cons x rest ih =>
    intro y ys hxs hy
    have hx : p x = true := hxs x (by simp)
    simp only [List.cons_append, List.takeWhile_cons, hx]
    rw [ih y ys (fun c hc => hxs c (by simp [hc])) hy]
    simp

theorem tagNameOf_concat (k : String) (y : Char) (rest : List Char)
    (hg : goodKey k = true) (hy : tagChar y = false) :
    tagNameOf (String.mk (' ' :: ' ' :: ' ' :: ' ' :: '<' :: (k.data ++ y :: rest))) = k := by
  unfold tagNameOf
  simp only [String.mk]
  have hdrop : ((' ' :: ' ' :: ' ' :: ' ' :: '<' :: (k.data ++ y :: rest)).drop 5) =
      k.data ++ y :: rest := rfl
  rw [hdrop]
  rw [takeWhile_front tagChar k.data y rest (List.all_eq_true.mp hg) hy]

theorem data_of_line (k : String) (x : String) :
    ("    <" ++ k ++ x).data = ' ' :: ' ' :: ' ' :: ' ' :: '<' :: (k.data ++ x.data) := by
  simp [String.data_append]



theorem tagNameOf_data (line : String) (k : String) (y : Char) (ys : List Char)
    (hg : goodKey k = true) (hy : tagChar y = false)
    (hdata : line.data = ' ' :: ' ' :: ' ' :: ' ' :: '<' :: (k.data ++ y :: ys)) :
    tagNameOf line = k := by
  unfold tagNameOf
  rw [hdata]
  have hdrop : ((' ' :: ' ' :: ' ' :: ' ' :: '<' :: (k.data ++ y :: ys)).drop 5) =
      k.data ++ y :: ys := rfl
  rw [hdrop]
  rw [takeWhile_front tagChar k.data y ys (List.all_eq_true.mp hg) hy]

theorem tagNameOf_systemFieldLine (env : Env) (k : String) (v : Val) (line : String)
    (hg : goodKey k = true) (h : systemFieldLine env k v = .ok line) :
    tagNameOf line = k := by
  cases v with
  | dict es =>
    simp only [systemFieldLine] at h
    cases hp : systemPartsAux env [] "" es with
    | error e => rw [hp] at h; cases h
    | ok pr =>
      obtain ⟨attrs, text⟩ := pr
      rw [hp] at h
      dsimp only at h
      by_cases ha : attrs.isEmpty
      · rw [if_neg (by simp [ha])] at h
        injection h with h2
        apply tagNameOf_data line k '>' (text.data ++ '<' :: '/' :: (k.data ++ ['>'])) hg
          (by decide)
        rw [← h2]
        simp [String.data_append]
      · rw [if_pos (by simpa using ha)] at h
        injection h with h2
        apply tagNameOf_data line k ' '
          ((joinWith " " attrs).data ++ '>' :: (text.data ++ '<' :: '/' :: (k.data ++ ['>'])))
          hg (by decide)
        rw [← h2]
        simp [String.data_append]
  | int i =>
    simp only [systemFieldLine] at h
    cases hr : get_random_value env (.int i) with
    | error e => rw [hr] at h; cases h
    | ok r =>
      rw [hr] at h
      injection h with h2
      apply tagNameOf_data line k '>' (r.data ++ '<' :: '/' :: (k.data ++ ['>'])) hg (by decide)
      rw [← h2]
      simp [String.data_append]
  | str s =>
    simp only [systemFieldLine] at h
    cases hr : get_random_value env (.str s) with
    | error e => rw [hr] at h; cases h
    | ok r =>
      rw [hr] at h
      injection h with h2
      apply tagNameOf_data line k '>' (r.data ++ '<' :: '/' :: (k.data ++ ['>'])) hg (by decide)
      rw [← h2]
      simp [String.data_append]
  | list vs =>
    simp only [systemFieldLine] at h
    cases hr : get_random_value env (.list vs) with
    | error e => rw [hr] at h; cases h
    | ok r =>
      rw [hr] at h
      injection h with h2
      apply tagNameOf_data line k '>' (r.data ++ '<' :: '/' :: (k.data ++ ['>'])) hg (by decide)
      rw [← h2]
      simp [String.data_append]



/-- The System section emits exactly one line per field, whose tags are
the mapping's keys in order. -/
theorem systemLines_tags (env : Env) :
    ∀ (es : List (String × Val)) (lines : List String),
      systemLines env es = .ok lines →
      (∀ p ∈ es, goodKey p.1 = true) →
      lines.map tagNameOf = es.map Prod.fst := by
  intro es
  induction es with
  | nil =>
    intro lines h hg
    injection h with h2
    rw [← h2]
    rfl
  | cons q rest ih =>
    intro lines h hg
    obtain ⟨k, v⟩ := q
    simp only [systemLines] at h
    cases hf : systemFieldLine env k v with
    | error e => rw [hf] at h; cases h
    | ok line =>
      rw [hf] at h
      dsimp only at h
      cases hrest : systemLines env rest with
      | error e => rw [hrest] at h; cases h
      | ok rls =>
        rw [hrest] at h
        injection h with h2
        rw [← h2]
        simp only [List.map_cons]
        rw [tagNameOf_systemFieldLine env k v line (hg (k, v) (by simp)) hf]
        rw [ih rls hrest (fun p hp => hg p (by simp [hp]))]

/-- The EventData section emits exactly one `Data` line per entry, the
i-th line serializing the i-th entry. -/
theorem dataLines_get (env : Env) :
    ∀ (items : List Val) (lines : List String),
      dataLines env items = .ok lines →
      lines.length = items.length ∧
      ∀ (i : Nat) (hi : i < items.length) (hl : i < lines.length),
        dataEntryLine env (items.get ⟨i, hi⟩) = .ok (lines.get ⟨i, hl⟩) := by
  intro items
  induction items with
  | nil =>
    intro lines h
    injection h with h2
    rw [← h2]
    exact ⟨rfl, fun i hi => absurd hi (by simp)⟩
  | cons d rest ih =>
    intro lines h
    simp only [dataLines] at h
    cases hd : dataEntryLine env d with
    | error e => rw [hd] at h; cases h
    | ok line =>
      rw [hd] at h
      dsimp only at h
      cases hrest : dataLines env rest with
      | error e => rw [hrest] at h; cases h
      | ok rls =>
        rw [hrest] at h
        injection h with h2
        obtain ⟨hlen, hidx⟩ := ih rls hrest
        subst h2
        refine ⟨by simp [hlen], ?_⟩
        intro i hi hl
        cases i with
        | zero => exact hd
        | succ j =>
          exact hidx j (by simpa using hi) (by simpa using hl)



/-- A fully-resolved (marker-free) valid 4624 configuration. -/
def c9Config : Val :=
  .dict [
    ("event_descriptor", .dict [
      ("Id", .int 4624), ("Version", .int 0), ("Channel", .int 2),
      ("Level", .int 0), ("Opcode", .int 0), ("Task", .int 12544),
      ("Keyword", .str "0x8020000000000000")]),
    ("template", .dict [
      ("message", .str "An account was successfully logged on."),
      ("values", .list [.str "S-1-5-21-1234567890"])]),
    ("Event", .dict [
      ("System", .dict [
        ("Provider", .dict [
          ("Name", .str "Microsoft-Windows-Security-Auditing"),
          ("Guid", .str "\x7b54849625-5478-4994-A5BA-3E3B0328C30D\x7d")]),
        ("EventID", .dict [("_text", .str "4624"), ("Qualifiers", .str "0")]),
        ("TimeCreated", .dict [("SystemTime", .str "2024-02-20T10:00:00")]),
        ("Computer", .str "TestComputer"),
        ("Channel", .str "Security")]),
      ("EventData", .dict [("Data", .list [
        .dict [("Name", .str "SubjectUserSid"), ("Type", .str "win:SID"),
               ("_text", .str "S-1-5-21-1234567890")],
        dataEntry "SubjectUserName" "win:UnicodeString" "TestUser",
        dataEntry "SubjectDomainName" "win:UnicodeString" "DOMAIN",
        dataEntry "SubjectLogonId" "win:HexInt64" "0x123456",
        dataEntry "LogonType" "win:UInt32" "2",
        dataEntry "RestrictedAdminMode" "win:Boolean" "No",
        dataEntry "VirtualAccount" "win:Boolean" "No",
        dataEntry "ElevatedToken" "win:Boolean" "Yes"])])])]

/-- A second, different environment for the determinism witness. -/
def envB : Env :=
  ⟨"87654321-4321-8765-4321-876543218765", 9, 1,
   "2025-01-01T00:00:00.000001", "2025-01-01T00:00:00"⟩

/-- C9: for a configuration in which no field value carries the
generator-invocation marker (fully resolved), two serializer runs under
any two randomness/clock environments produce identical results — in
particular byte-identical output text whenever output is produced — and
the serializer emits System fields in the source mapping's own order (the
emitted line tags, for tag-safe keys, are exactly the mapping keys in
order) and one `Data` element per EventData entry, in list order. -/
theorem c9_serializer_deterministic (config : Val) (h : resolvedVal config = true) (env1 env2 : Env) :
    get_windows_event_log env1 config = get_windows_event_log env2 config ∧
    (∀ (env : Env) (es : List (String × Val)) (lines : List String),
      systemLines env es = .ok lines → (∀ p ∈ es, goodKey p.1 = true) →
      lines.map tagNameOf = es.map Prod.fst) ∧
    (∀ (env : Env) (items : List Val) (lines : List String),
      dataLines env items = .ok lines →
      lines.length = items.length ∧
      ∀ (i : Nat) (hi : i < items.length) (hl : i < lines.length),
        dataEntryLine env (items.get ⟨i, hi⟩) = .ok (lines.get ⟨i, hl⟩)) :=
  ⟨get_windows_event_log_env env1 env2 config h,
   fun env es lines h1 h2 => systemLines_tags env es lines h1 h2,
   fun env items lines h1 => dataLines_get env items lines h1⟩

/-- C9, instantiated: the fully-resolved configuration serializes
byte-identically under the two different environments `env0` and `envB`,
and a concrete System section's tags equal its keys in order. -/
theorem c9_serializer_deterministic_witness :
    get_windows_event_log env0 c9Config = get_windows_event_log envB c9Config ∧
    ["    <Computer>TestComputer</Computer>"].map tagNameOf = ["Computer"] := by
  have h := c9_serializer_deterministic c9Config rfl env0 envB
  refine ⟨h.1, ?_⟩
  exact h.2.1 env0 [("Computer", .str "TestComputer")]
    ["    <Computer>TestComputer</Computer>"] rfl (by decide)


end RlogGen
